import Mathlib

/-!
# Verification of the Asteroids-Studio simulation core

A shallow embedding, over the exact rationals `ℚ`, of the simulation,
collision-resolution and game-state logic of the repository
(`src/utils/gameMath.ts`, `src/types.ts` and the main game component in
`src/unnamed/part_000`), together with proofs settling the frozen claims
about it.

Modelling conventions:

* JavaScript numbers are modelled as exact rationals (`ℚ`); `Math.PI` is
  the exact rational value of the IEEE-754 double `Math.PI`.
* `Math.cos`, `Math.sin` and `Math.atan2` are supplied by the environment
  as abstract oracles (`ℚ` has no trigonometric functions); no claim
  depends on their values.
* `Math.random()` draws are supplied by the environment as oracle streams,
  one stream per call site; this is faithful because the draws are
  independent external inputs and no claim depends on their values.
* `Math.sqrt(d) < s` (in `checkCollision`) is rendered sqrt-free as
  `0 < s ∧ d < s^2`, which is equivalent for every rational `d ≥ 0`, `s`.
* Mutable refs (`shipRef`, `asteroidsRef`, ...) become fields of an
  explicit state record `GameSt` threaded through the per-frame update;
  `setTimeout` callbacks become separate events of a transition relation
  `Step`, with `pending*` flags recording scheduled timeouts.
* Fields used only for rendering (`color`, `id`) are omitted.
-/

namespace Asteroids

/-- 2-D point / vector, `Point` of `src/types.ts`. -/
structure Point where
  x : ℚ
  y : ℚ
  deriving DecidableEq

/-- The exact rational value of the IEEE-754 double `Math.PI`
(`7074237752028440 / 2^51`, reduced). -/
def mathPi : ℚ := 884279719003555 / 281474976710656

/-- `DEG_TO_RAD = Math.PI / 180` from `src/utils/gameMath.ts` line 4. -/
def DEG_TO_RAD : ℚ := mathPi / 180

/-- `randomRange(min, max)` from `src/utils/gameMath.ts` lines 6-8.
The source calls `Math.random()` internally; here the draw `r`
(standing for the `Math.random()` result) is passed explicitly. -/
def randomRange (r min max : ℚ) : ℚ := r * (max - min) + min

/-- Squared distance between two points.  `distance` in
`src/utils/gameMath.ts` lines 10-14 is `Math.sqrt` of this. -/
def distSq (p1 p2 : Point) : ℚ := (p1.x - p2.x) ^ 2 + (p1.y - p2.y) ^ 2

/-- `checkCollision` from `src/utils/gameMath.ts` lines 43-46:
`distance(p1, p2) < r1 + r2`.  Rendered sqrt-free: for every rational
`s`, `Real.sqrt d < s ↔ 0 < s ∧ d < s^2` when `d ≥ 0`, and `distSq` is
a sum of squares hence nonnegative. -/
def checkCollision (p1 : Point) (r1 : ℚ) (p2 : Point) (r2 : ℚ) : Prop :=
  0 < r1 + r2 ∧ distSq p1 p2 < (r1 + r2) ^ 2

instance (p1 : Point) (r1 : ℚ) (p2 : Point) (r2 : ℚ) :
    Decidable (checkCollision p1 r1 p2 r2) := by
  unfold checkCollision; infer_instance

/-- `rotatePoint` from `src/utils/gameMath.ts` lines 16-21, with the
trigonometric oracles passed explicitly. -/
def rotatePoint (cosF sinF : ℚ → ℚ) (p : Point) (angle : ℚ) : Point :=
  { x := p.x * cosF angle - p.y * sinF angle
    y := p.x * sinF angle + p.y * cosF angle }

/-- First loop of `normalizeAngle` (`src/utils/gameMath.ts` line 24):
`while (angle > Math.PI) angle -= Math.PI * 2`. -/
def wrapDown (a : ℚ) : ℚ :=
  if mathPi < a then wrapDown (a - 2 * mathPi) else a
termination_by (Int.ceil ((a - mathPi) / (2 * mathPi))).toNat
decreasing_by
  have hp : (0 : ℚ) < mathPi := by norm_num [mathPi]
  have h2 : (0 : ℚ) < 2 * mathPi := by linarith
  have key : (a - 2 * mathPi - mathPi) / (2 * mathPi)
      = (a - mathPi) / (2 * mathPi) - 1 := by
    field_simp
    ring
  rw [key, Int.ceil_sub_one]
  have hup : 0 < Int.ceil ((a - mathPi) / (2 * mathPi)) :=
    Int.ceil_pos.mpr (div_pos (by linarith) h2)
  omega

/-- Second loop of `normalizeAngle` (`src/utils/gameMath.ts` line 25):
`while (angle < -Math.PI) angle += Math.PI * 2`. -/
def wrapUp (a : ℚ) : ℚ :=
  if a < -mathPi then wrapUp (a + 2 * mathPi) else a
termination_by (Int.ceil ((-mathPi - a) / (2 * mathPi))).toNat
decreasing_by
  have hp : (0 : ℚ) < mathPi := by norm_num [mathPi]
  have h2 : (0 : ℚ) < 2 * mathPi := by linarith
  have key : (-mathPi - (a + 2 * mathPi)) / (2 * mathPi)
      = (-mathPi - a) / (2 * mathPi) - 1 := by
    field_simp
    ring
  rw [key, Int.ceil_sub_one]
  have hup : 0 < Int.ceil ((-mathPi - a) / (2 * mathPi)) :=
    Int.ceil_pos.mpr (div_pos (by linarith) h2)
  omega

/-- `normalizeAngle` from `src/utils/gameMath.ts` lines 23-27: the
subtracting loop runs first, then the adding loop. -/
def normalizeAngle (a : ℚ) : ℚ := wrapUp (wrapDown a)

/-- `wrapPosition` from `src/utils/gameMath.ts` lines 48-58: the four
`if` statements are sequential, each reading the value left by the
previous one. -/
def wrapPosition (pos : Point) (width height : ℚ) : Point :=
  let x0 := pos.x
  let y0 := pos.y
  let x1 := if x0 < 0 then width else x0
  let x2 := if width < x1 then 0 else x1
  let y1 := if y0 < 0 then height else y0
  let y2 := if height < y1 then 0 else y1
  { x := x2, y := y2 }

/-- `generateAsteroidVertices` from `src/utils/gameMath.ts` lines 29-41,
with the trigonometric oracles and the per-vertex `Math.random()` draws
passed explicitly. -/
def generateAsteroidVertices (cosF sinF : ℚ → ℚ) (rf : ℕ → ℚ)
    (radius : ℚ) (numVertices : ℕ) : List Point :=
  (List.range numVertices).map (fun (i : ℕ) =>
    let angle : ℚ := ((i : ℚ) / (numVertices : ℚ)) * (mathPi * 2)
    let r := radius * randomRange (rf i) (7/10) (13/10)
    { x := cosF angle * r, y := sinF angle * r })

/-- Membership of a point in the closed box `[0,w] × [0,h]`. -/
def inClosedBox (p : Point) (w h : ℚ) : Prop :=
  0 ≤ p.x ∧ p.x ≤ w ∧ 0 ≤ p.y ∧ p.y ≤ h

instance (p : Point) (w h : ℚ) : Decidable (inClosedBox p w h) := by
  unfold inClosedBox; infer_instance

/-! ## Entity model (`src/types.ts`) and game constants (`part_000` lines 6-33) -/

/-- `GameState` enumeration from `src/types.ts` lines 76-83. -/
inductive GameState where
  | MENU
  | PLAYING
  | GAME_OVER
  | ENTER_INITIALS
  | HIGH_SCORES
  | LEVEL_TRANSITION
  deriving DecidableEq

/-- Obstacle size classes of `Asteroid.size` (`src/types.ts` line 42). -/
inductive AsteroidSize where
  | large
  | medium
  | small
  deriving DecidableEq

/-- `PowerUpType` from `src/types.ts` line 58. -/
inductive PowerUpType where
  | MULTI_SHOT
  | SHIELD
  | TIME_SLOW
  | MISSILE
  deriving DecidableEq

/-- Projectile owner tag of `Bullet.owner` (`src/types.ts` line 49). -/
inductive BulletOwner where
  | ship
  | ufo
  deriving DecidableEq

/-- `Ship` from `src/types.ts` lines 22-33 (rendering-only `id`/`color`
omitted). -/
structure Ship where
  position : Point
  velocity : Point
  angle : ℚ
  radius : ℚ
  dead : Bool
  rotationSpeed : ℚ
  thrusting : Bool
  invulnerable : ℚ
  cooldown : ℚ
  powerupMultiShotTimer : ℚ
  powerupShieldTimer : ℚ
  powerupTimeSlowTimer : ℚ
  missileAmmo : ℕ
  deriving DecidableEq

/-- `Ufo` from `src/types.ts` lines 35-39. -/
structure Ufo where
  position : Point
  velocity : Point
  angle : ℚ
  radius : ℚ
  dead : Bool
  directionChangeTimer : ℚ
  shootCooldown : ℚ
  accuracy : ℚ
  deriving DecidableEq

/-- `Asteroid` from `src/types.ts` lines 41-45. -/
structure Asteroid where
  position : Point
  velocity : Point
  angle : ℚ
  radius : ℚ
  dead : Bool
  size : AsteroidSize
  vertices : List Point
  rotationSpeed : ℚ
  deriving DecidableEq

/-- `Bullet` from `src/types.ts` lines 47-50. -/
structure Bullet where
  position : Point
  velocity : Point
  angle : ℚ
  radius : ℚ
  dead : Bool
  life : ℚ
  owner : BulletOwner
  deriving DecidableEq

/-- `Particle` from `src/types.ts` lines 52-56. -/
structure Particle where
  position : Point
  velocity : Point
  angle : ℚ
  radius : ℚ
  dead : Bool
  life : ℚ
  maxLife : ℚ
  size : ℚ
  deriving DecidableEq

/-- `PowerUp` from `src/types.ts` lines 60-63. -/
structure PowerUp where
  position : Point
  velocity : Point
  angle : ℚ
  radius : ℚ
  dead : Bool
  type : PowerUpType
  life : ℚ
  deriving DecidableEq

/-- `Missile` from `src/types.ts` lines 65-68 (`targetId` is never
used by the game logic and is omitted). -/
structure Missile where
  position : Point
  velocity : Point
  angle : ℚ
  radius : ℚ
  dead : Bool
  life : ℚ
  deriving DecidableEq

/-! Game constants, `part_000` lines 6-33.  Decimal literals are the
exact rationals they denote. -/

def SHIP_SIZE : ℚ := 20
def TURN_SPEED : ℚ := 240 * DEG_TO_RAD
def THRUST_POWER : ℚ := 300
def BULLET_SPEED : ℚ := 400
def UFO_BULLET_SPEED : ℚ := 200
def BULLET_LIFE : ℚ := 3/2
def FIRE_RATE : ℚ := 1/5
def POWERUP_DURATION : ℚ := 10
def POWERUP_DROP_RATE : ℚ := 1/10
def MISSILE_SPEED : ℚ := 350
def MISSILE_TURN_SPEED : ℚ := 3
def UFO_SPEED : ℚ := 100
def UFO_SIZE : ℚ := 20
def UFO_FIRE_RATE : ℚ := 3/2

/-- `ASTEROID_CONFIG[size].radius` (`part_000` lines 29-33). -/
def astRadius : AsteroidSize → ℚ
  | .large => 40
  | .medium => 25
  | .small => 15

/-- `ASTEROID_CONFIG[size].speed` (`part_000` lines 29-33). -/
def astSpeed : AsteroidSize → ℚ
  | .large => 50
  | .medium => 80
  | .small => 120

/-- The ternary `a.size === 'large' ? 'medium' : 'small'` (`part_000`
line 632), evaluated by the source only when the size is not `small`. -/
def nextSize (s : AsteroidSize) : AsteroidSize :=
  if s = .large then .medium else .small

/-- The inline score ternary
`a.size === 'large' ? 20 : a.size === 'medium' ? 50 : 100`
(`part_000` line 629). -/
def astScoreValue (s : AsteroidSize) : ℕ :=
  if s = .large then 20 else if s = .medium then 50 else 100

/-- Per-frame environment: elapsed time, canvas size, wall clock, held
keys, trigonometric oracles and `Math.random()` oracle streams (one
stream per call site; indices select successive draws / loop entities). -/
structure Env where
  rawDelta : ℚ
  width : ℚ
  height : ℚ
  now : ℚ
  keyLeft : Bool
  keyRight : Bool
  keyUp : Bool
  keyFire : Bool
  cosF : ℚ → ℚ
  sinF : ℚ → ℚ
  atan2F : ℚ → ℚ → ℚ
  exhaustR : ℕ → ℚ
  ufoR : ℕ → ℚ
  smokeR : ℕ → ℚ
  explR : ℕ → ℕ → ℕ → ℕ → ℚ
  dropR : ℕ → ℕ → ℕ → ℚ
  childR : ℕ → ℕ → ℕ → ℚ

/-- The whole mutable state of the game component: React state
(`gameState`, `score`, `lives`, `level`), the entity refs, the UFO
spawn timers, and flags recording scheduled `setTimeout` callbacks.
`gameOverCount` counts the invocations of `handleGameOver`. -/
structure GameSt where
  gameState : GameState
  score : ℕ
  lives : ℤ
  level : ℕ
  ship : Option Ship
  ufo : Option Ufo
  asteroids : List Asteroid
  bullets : List Bullet
  missiles : List Missile
  powerUps : List PowerUp
  particles : List Particle
  lastUfoSpawnTime : ℚ
  nextUfoSpawnDelay : ℚ
  pendingRespawn : Bool
  pendingGameOver : Bool
  pendingLevel : Bool
  pendingStart : Bool
  gameOverCount : ℕ

/-- Whether a live craft exists (`shipRef.current && !shipRef.current.dead`). -/
def shipAliveB (s : GameSt) : Bool :=
  match s.ship with
  | some sh => !sh.dead
  | none => false

/-! ## Spawning helpers (`part_000` lines 90-195) -/

/-- `Math.sign`. -/
def signQ (q : ℚ) : ℚ := if 0 < q then 1 else if q < 0 then -1 else 0

/-- `createExplosion` from `part_000` lines 90-110 (it only appends
particles; the list of appended particles is returned).  `rf i k` is the
`k`-th `Math.random()` draw of the `i`-th particle
(speed, angle, life, size in draw order). -/
def createExplosion (cosF sinF : ℚ → ℚ) (rf : ℕ → ℕ → ℚ)
    (pos : Point) (count : ℕ) : List Particle :=
  (List.range count).map (fun (i : ℕ) =>
    let speed := randomRange (rf i 0) 50 150
    let angle := randomRange (rf i 1) 0 (mathPi * 2)
    { position := pos
      velocity := { x := cosF angle * speed, y := sinF angle * speed }
      angle := 0, radius := 1, dead := false
      life := randomRange (rf i 2) (1/2) 1, maxLife := 1
      size := randomRange (rf i 3) 1 3 })

/-- The `types` array of `spawnPowerUp` (`part_000` line 115). -/
def powerUpTypes : List PowerUpType :=
  [.MULTI_SHOT, .SHIELD, .TIME_SLOW, .MISSILE]

/-- `spawnPowerUp` from `part_000` lines 112-129 (returned as the list
of appended power-ups: empty when the 10% drop roll fails).  `rf` is
the draw stream: drop roll, type index, drift x, drift y.  For genuine
`Math.random()` draws in `[0,1)` the type index is `0..3`; `getD` makes
the lookup total for out-of-range oracle values. -/
def spawnPowerUp (rf : ℕ → ℚ) (pos : Point) : List PowerUp :=
  if POWERUP_DROP_RATE < rf 0 then [] else
  [{ position := pos
     velocity := { x := randomRange (rf 2) (-20) 20
                   y := randomRange (rf 3) (-20) 20 }
     angle := 0, radius := 15, dead := false
     type := powerUpTypes.getD (Int.floor (rf 1 * 4)).toNat .MULTI_SHOT
     life := 15 }]

/-- `spawnUfo` from `part_000` lines 159-175. -/
def spawnUfo (rf : ℕ → ℚ) (width height : ℚ) : Ufo :=
  let startLeft := (1/2 : ℚ) < rf 0
  { position := { x := if startLeft then 0 else width
                  y := randomRange (rf 1) (height * (2/10)) (height * (8/10)) }
    velocity := { x := if startLeft then UFO_SPEED else -UFO_SPEED, y := 0 }
    angle := 0, radius := UFO_SIZE, dead := false
    directionChangeTimer := 0, shootCooldown := 2, accuracy := 8/10 }

/-- `resetShip` from `part_000` lines 177-195. -/
def resetShip (width height : ℚ) : Ship :=
  { position := { x := width / 2, y := height / 2 }
    velocity := { x := 0, y := 0 }
    angle := -(mathPi / 2), radius := SHIP_SIZE, dead := false
    rotationSpeed := 0, thrusting := false, invulnerable := 3, cooldown := 0
    powerupMultiShotTimer := 0, powerupShieldTimer := 0
    powerupTimeSlowTimer := 0, missileAmmo := 0 }

/-! ## Per-frame update phase (`part_000` lines 372-586) -/

/-- `timeSlowActive` (`part_000` line 355): read from the craft before
the frame's timer decrements, via optional chaining (a dead craft still
counts). -/
def timeSlowActive (shipOpt : Option Ship) : Bool :=
  match shipOpt with
  | some sh => if 0 < sh.powerupTimeSlowTimer then true else false
  | none => false

/-- `enemyDt` (`part_000` line 378): non-craft entities run at
`0.3 ×` the frame delta while time dilation is active. -/
def enemyDtOf (tsa : Bool) (dt : ℚ) : ℚ := if tsa then dt * (3/10) else dt

/-- `fireBullet(angleOffset)` from `part_000` lines 425-442, reading the
craft's already-turned angle and pre-integration position. -/
def fireBullet (cosF sinF : ℚ → ℚ) (sh : Ship) (angleOffset : ℚ) : Bullet :=
  let fireAngle := sh.angle + angleOffset
  let nose := rotatePoint cosF sinF { x := sh.radius, y := 0 } fireAngle
  { position := { x := sh.position.x + nose.x, y := sh.position.y + nose.y }
    velocity := { x := cosF fireAngle * BULLET_SPEED
                  y := sinF fireAngle * BULLET_SPEED }
    angle := fireAngle, radius := 2, dead := false
    life := BULLET_LIFE, owner := .ship }

/-- Result of the craft's per-frame logic. -/
structure ShipRes where
  ship : Ship
  shots : List Bullet
  exhaust : List Particle

/-- Craft logic of `part_000` lines 381-457: power-up timer decay, turn
and thrust intent (with probabilistic exhaust particle), weapon cooldown
and firing (three-way fan-out under multi-shot), integration with
toroidal wrap, and invulnerability decay, in source order. -/
def shipUpdate (e : Env) (dt : ℚ) (sh : Ship) : ShipRes :=
  let multi := if 0 < sh.powerupMultiShotTimer then sh.powerupMultiShotTimer - dt
    else sh.powerupMultiShotTimer
  let shield := if 0 < sh.powerupShieldTimer then sh.powerupShieldTimer - dt
    else sh.powerupShieldTimer
  let slow := if 0 < sh.powerupTimeSlowTimer then sh.powerupTimeSlowTimer - dt
    else sh.powerupTimeSlowTimer
  let a1 := if e.keyLeft then sh.angle - TURN_SPEED * dt else sh.angle
  let a2 := if e.keyRight then a1 + TURN_SPEED * dt else a1
  let vel1 := if e.keyUp then
      { x := sh.velocity.x + e.cosF a2 * THRUST_POWER * dt
        y := sh.velocity.y + e.sinF a2 * THRUST_POWER * dt }
    else sh.velocity
  let exhaust : List Particle := if e.keyUp ∧ (1/2 : ℚ) < e.exhaustR 0 then
      let off := rotatePoint e.cosF e.sinF { x := -sh.radius, y := 0 } a2
      [{ position := { x := sh.position.x + off.x, y := sh.position.y + off.y }
         velocity := { x := -(e.cosF a2) * randomRange (e.exhaustR 1) 50 100
                       y := -(e.sinF a2) * randomRange (e.exhaustR 2) 50 100 }
         angle := 0, radius := 2, dead := false
         life := 3/10, maxLife := 3/10, size := 2 }]
    else []
  let cd1 := if 0 < sh.cooldown then sh.cooldown - dt else sh.cooldown
  let fired := e.keyFire ∧ cd1 ≤ 0
  let shMid : Ship := { sh with
    angle := a2, velocity := vel1
    thrusting := e.keyUp
    powerupMultiShotTimer := multi, powerupShieldTimer := shield
    powerupTimeSlowTimer := slow
    cooldown := if fired then FIRE_RATE else cd1 }
  let shots := if fired then
      fireBullet e.cosF e.sinF shMid 0 ::
        (if 0 < multi then
          [fireBullet e.cosF e.sinF shMid (-(1/5)),
           fireBullet e.cosF e.sinF shMid (1/5)]
         else [])
    else []
  { ship := { shMid with
      position := wrapPosition
        { x := sh.position.x + vel1.x * dt, y := sh.position.y + vel1.y * dt }
        e.width e.height
      invulnerable := if 0 < sh.invulnerable then sh.invulnerable - dt
        else sh.invulnerable }
    shots := shots
    exhaust := exhaust }

/-- Result of the hostile-unit per-frame logic. -/
structure UfoRes where
  ufo : Option Ufo
  shots : List Bullet
  lastT : ℚ
  nextD : ℚ

/-- Hostile-unit logic of `part_000` lines 460-506: timed spawn when
absent; otherwise integration at the enemy delta, direction-change
re-roll, edge despawn, and firing at the (already updated) craft.  As in
the source, the despawn check precedes the firing code but does not
suppress it (the local `ufo` binding outlives `ufoRef.current = null`),
so a despawning unit can still fire in the same frame. -/
def ufoLogic (e : Env) (enemyDt : ℚ) (shipOpt : Option Ship)
    (ufoOpt : Option Ufo) (lastT nextD : ℚ) : UfoRes :=
  match ufoOpt with
  | none =>
    if nextD < e.now - lastT then
      { ufo := some (spawnUfo e.ufoR e.width e.height), shots := []
        lastT := e.now, nextD := randomRange (e.ufoR 2) 15000 30000 }
    else
      { ufo := none, shots := [], lastT := lastT, nextD := nextD }
  | some u =>
    let p1 : Point := { x := u.position.x + u.velocity.x * enemyDt
                        y := u.position.y + u.velocity.y * enemyDt }
    let t1 := u.directionChangeTimer - enemyDt
    let t2 := if t1 ≤ 0 then randomRange (e.ufoR 3) 1 3 else t1
    let vy := if t1 ≤ 0 then randomRange (e.ufoR 4) (-50) 50 else u.velocity.y
    let despawned := (0 < u.velocity.x ∧ e.width + 50 < p1.x) ∨
      (u.velocity.x < 0 ∧ p1.x < -50)
    let c1 := u.shootCooldown - enemyDt
    let shotRes : ℚ × List Bullet :=
      match shipOpt with
      | some sh =>
        if c1 ≤ 0 ∧ sh.dead = false then
          let angleToShip := e.atan2F (sh.position.y - p1.y) (sh.position.x - p1.x)
          let acc := randomRange (e.ufoR 5) (-(1/5)) (1/5)
          (UFO_FIRE_RATE,
           [{ position := p1
              velocity := { x := e.cosF (angleToShip + acc) * UFO_BULLET_SPEED
                            y := e.sinF (angleToShip + acc) * UFO_BULLET_SPEED }
              angle := 0, radius := 3, dead := false
              life := BULLET_LIFE, owner := .ufo }])
        else (c1, [])
      | none => (c1, [])
    { ufo := if despawned then none else
        some { u with
          position := p1
          velocity := { x := u.velocity.x, y := vy }
          directionChangeTimer := t2, shootCooldown := shotRes.1 }
      shots := shotRes.2
      lastT := if despawned then e.now else lastT
      nextD := nextD }

/-- Projectile integration of `part_000` lines 509-517: hostile-owned
projectiles use the enemy delta, craft-owned ones the real delta; the
lifetime decays by the same delta and marks expiry. -/
def bulletStep (dt enemyDt : ℚ) (b : Bullet) : Bullet :=
  let bdt := if b.owner = .ufo then enemyDt else dt
  let life1 := b.life - bdt
  { b with
    position := { x := b.position.x + b.velocity.x * bdt
                  y := b.position.y + b.velocity.y * bdt }
    life := life1
    dead := if life1 ≤ 0 then true else b.dead }

/-- Homing-projectile integration of `part_000` lines 521-558: when a
hostile unit is live, turn the heading toward it at a bounded rate and
reset the velocity to the fixed speed along the new heading, then
integrate at the real delta, decay lifetime and possibly emit a smoke
particle at the post-move position.  `i` is the projectile's index in
its collection (selecting its smoke draw). -/
def missileStep (e : Env) (dt : ℚ) (ufoOpt : Option Ufo) (i : ℕ)
    (m : Missile) : Missile × List Particle :=
  let m1 := match ufoOpt with
    | some target =>
      let angleToTarget := e.atan2F (target.position.y - m.position.y)
        (target.position.x - m.position.x)
      let currentAngle := e.atan2F m.velocity.y m.velocity.x
      let diff := normalizeAngle (angleToTarget - currentAngle)
      let turn := min |diff| (MISSILE_TURN_SPEED * dt) * signQ diff
      let newAngle := currentAngle + turn
      { m with
        velocity := { x := e.cosF newAngle * MISSILE_SPEED
                      y := e.sinF newAngle * MISSILE_SPEED }
        angle := newAngle }
    | none => m
  let life1 := m1.life - dt
  let m2 := { m1 with
    position := { x := m1.position.x + m1.velocity.x * dt
                  y := m1.position.y + m1.velocity.y * dt }
    life := life1
    dead := if life1 ≤ 0 then true else m1.dead }
  (m2,
   if (1/2 : ℚ) < e.smokeR i then
     [{ position := m2.position, velocity := { x := 0, y := 0 }
        angle := 0, radius := 2, dead := false
        life := 1/2, maxLife := 1/2, size := 2 }]
   else [])

/-- Obstacle integration of `part_000` lines 562-567: enemy delta,
spin, toroidal wrap. -/
def asteroidStep (enemyDt w h : ℚ) (a : Asteroid) : Asteroid :=
  { a with
    position := wrapPosition
      { x := a.position.x + a.velocity.x * enemyDt
        y := a.position.y + a.velocity.y * enemyDt } w h
    angle := a.angle + a.rotationSpeed * enemyDt }

/-- Power-up integration of `part_000` lines 570-576: real delta,
lifetime decay and expiry, toroidal wrap. -/
def powerUpStep (dt w h : ℚ) (p : PowerUp) : PowerUp :=
  let life1 := p.life - dt
  { p with
    position := wrapPosition
      { x := p.position.x + p.velocity.x * dt
        y := p.position.y + p.velocity.y * dt } w h
    life := life1
    dead := if life1 ≤ 0 then true else p.dead }

/-- Particle integration of `part_000` lines 580-585: real delta,
lifetime decay and expiry, no wrap. -/
def particleStep (dt : ℚ) (p : Particle) : Particle :=
  let life1 := p.life - dt
  { p with
    position := { x := p.position.x + p.velocity.x * dt
                  y := p.position.y + p.velocity.y * dt }
    life := life1
    dead := if life1 ≤ 0 then true else p.dead }

/-- The whole update phase of a frame (`part_000` lines 372-586), for a
frame whose observed phase is in the active set: craft logic and
hostile-unit logic only while `PLAYING`; then projectile, homing
projectile, obstacle, power-up and particle integration with expiry
purging, in source order.  Projectiles fired this frame are integrated
this frame (they are appended before the projectile loop runs). -/
def updatePhase (e : Env) (dt : ℚ) (s : GameSt) : GameSt :=
  let enemyDt := enemyDtOf (timeSlowActive s.ship) dt
  let shipRes : Option Ship × List Bullet × List Particle :=
    match s.ship with
    | some sh =>
      if s.gameState = .PLAYING ∧ sh.dead = false then
        let r := shipUpdate e dt sh
        (some r.ship, r.shots, r.exhaust)
      else (some sh, [], [])
    | none => (none, [], [])
  let ufoRes : UfoRes :=
    if s.gameState = .PLAYING then
      ufoLogic e enemyDt shipRes.1 s.ufo s.lastUfoSpawnTime s.nextUfoSpawnDelay
    else
      { ufo := s.ufo, shots := [], lastT := s.lastUfoSpawnTime
        nextD := s.nextUfoSpawnDelay }
  let mres := s.missiles.enum.map (fun pr => missileStep e dt ufoRes.ufo pr.1 pr.2)
  { s with
    ship := shipRes.1
    ufo := ufoRes.ufo
    bullets := ((s.bullets ++ shipRes.2.1 ++ ufoRes.shots).map
      (bulletStep dt enemyDt)).filter (fun b => b.dead = false)
    missiles := (mres.map Prod.fst).filter (fun m => m.dead = false)
    asteroids := s.asteroids.map (asteroidStep enemyDt e.width e.height)
    powerUps := (s.powerUps.map (powerUpStep dt e.width e.height)).filter
      (fun p => p.dead = false)
    particles := ((s.particles ++ shipRes.2.2 ++ (mres.map Prod.snd).flatten).map
      (particleStep dt)).filter (fun p => p.dead = false)
    lastUfoSpawnTime := ufoRes.lastT
    nextUfoSpawnDelay := ufoRes.nextD }

/-! ## Collision and resolution phase (`part_000` lines 589-768)

Oracle call-site numbering for `Env.explR`/`Env.dropR`: 0 = craft
projectile vs obstacle, 1 = craft projectile vs hostile unit, 2 =
hostile projectile kills craft, 3 = homing projectile vs hostile unit,
4 = homing projectile vs obstacle, 5 = craft body vs obstacle, 6/7 =
craft body vs hostile unit (craft / unit explosions). -/

/-- The power-up pickup `switch` (`part_000` lines 597-610). -/
def applyPowerUpEffect (sh : Ship) (t : PowerUpType) : Ship :=
  match t with
  | .MULTI_SHOT => { sh with powerupMultiShotTimer := POWERUP_DURATION }
  | .SHIELD => { sh with powerupShieldTimer := POWERUP_DURATION }
  | .TIME_SLOW => { sh with powerupTimeSlowTimer := POWERUP_DURATION }
  | .MISSILE => { sh with missileAmmo := sh.missileAmmo + 1 }

/-- Craft-vs-power-up loop body (`part_000` lines 593-614): every
power-up overlapping the craft's `1.5 ×` pickup radius is marked dead
and its effect applied; the loop does not break, so several can apply
in one frame.  (The transient `setAiMessage` display is ignored.) -/
def pickupGo (sh : Ship) : List PowerUp → Ship × List PowerUp
  | [] => (sh, [])
  | p :: ps =>
    if checkCollision sh.position (sh.radius * (3/2)) p.position p.radius then
      let r := pickupGo (applyPowerUpEffect sh p.type) ps
      (r.1, { p with dead := true } :: r.2)
    else
      let r := pickupGo sh ps
      (r.1, p :: r.2)

/-- Collision step 1 (`part_000` lines 591-615): craft picks up
power-ups, only while it exists and is alive. -/
def pickupPass (s : GameSt) : GameSt :=
  match s.ship with
  | some sh =>
    if sh.dead = false then
      let r := pickupGo sh s.powerUps
      { s with ship := some r.1, powerUps := r.2 }
    else s
  | none => s

/-- One child obstacle of the split loop (`part_000` lines 634-648).
`rf` supplies the child's draws: heading, speed factor, spin, then one
per outline vertex. -/
def spawnAsteroidChild (cosF sinF : ℚ → ℚ) (rf : ℕ → ℚ)
    (parent : Asteroid) (ns : AsteroidSize) : Asteroid :=
  let angle := randomRange (rf 0) 0 (mathPi * 2)
  let speed := astSpeed ns * randomRange (rf 1) (8/10) (12/10)
  { position := parent.position
    velocity := { x := cosF angle * speed, y := sinF angle * speed }
    angle := 0
    rotationSpeed := randomRange (rf 2) (-2) 2
    radius := astRadius ns
    dead := false
    size := ns
    vertices := generateAsteroidVertices cosF sinF (fun v => rf (3 + v))
      (astRadius ns) (if ns = .medium then 8 else 6) }

/-- Result of resolving one craft projectile against the obstacle list. -/
structure BulletAstRes where
  bullet : Bullet
  asteroids : List Asteroid
  scoreAdd : ℕ
  drops : List PowerUp
  parts : List Particle

/-- Craft projectile vs obstacles (`part_000` lines 622-653): scan in
spawn order, skip already-dead obstacles, and on the first overlap mark
both dead, roll a power-up drop, emit a 10-particle burst, award the
class score, push two next-smaller children (appended at the end of the
collection) unless the class is `small`, and break. -/
def resolveBulletAsteroids (cosF sinF : ℚ → ℚ) (expl : ℕ → ℕ → ℚ)
    (dr : ℕ → ℚ) (cr : ℕ → ℕ → ℚ) (b : Bullet) :
    List Asteroid → BulletAstRes
  | [] => { bullet := b, asteroids := [], scoreAdd := 0, drops := [], parts := [] }
  | a :: rest =>
    if a.dead = false ∧ checkCollision b.position b.radius a.position a.radius then
      { bullet := { b with dead := true }
        asteroids := { a with dead := true } :: rest ++
          (if a.size ≠ .small then
            [spawnAsteroidChild cosF sinF (cr 0) a (nextSize a.size),
             spawnAsteroidChild cosF sinF (cr 1) a (nextSize a.size)]
           else [])
        scoreAdd := astScoreValue a.size
        drops := spawnPowerUp dr a.position
        parts := createExplosion cosF sinF expl a.position 10 }
    else
      let r := resolveBulletAsteroids cosF sinF expl dr cr b rest
      { r with asteroids := a :: r.asteroids }

/-- The shared craft-death tail (`part_000` lines 678-685, 729-741,
748-764): mark the craft dead, append its explosion burst, decrement
lives; at zero lives invoke `handleGameOver` (phase := `GAME_OVER`,
schedule its timeout, counted by `gameOverCount`), otherwise schedule
the deferred respawn. -/
def applyShipDeath (st : GameSt) (sh : Ship) (parts : List Particle) : GameSt :=
  let lives1 := st.lives - 1
  let base := { st with
    ship := some { sh with dead := true }
    particles := st.particles ++ parts
    lives := lives1 }
  if lives1 ≤ 0 then
    { base with
      gameState := .GAME_OVER, pendingGameOver := true
      gameOverCount := st.gameOverCount + 1 }
  else
    { base with pendingRespawn := true }

/-- Resolution of one projectile (`part_000` lines 618-689): craft-owned
projectiles test obstacles then the hostile unit; hostile-owned ones
test the craft, skipped while invulnerable, absorbed (projectile only
marked dead) at the doubled shield radius while shielded, otherwise a
hit at the reduced `0.7 ×` radius kills the craft.  `i` is the
projectile's index in its collection. -/
def resolveBullet (e : Env) (i : ℕ) (b : Bullet) (st : GameSt) :
    Bullet × GameSt :=
  if b.dead then (b, st) else
  match b.owner with
  | .ship =>
    let r := resolveBulletAsteroids e.cosF e.sinF (e.explR 0 i) (e.dropR 0 i)
      (e.childR i) b st.asteroids
    let st1 := { st with
      asteroids := r.asteroids
      score := st.score + r.scoreAdd
      powerUps := st.powerUps ++ r.drops
      particles := st.particles ++ r.parts }
    match st1.ufo with
    | some u =>
      if r.bullet.dead = false ∧
          checkCollision r.bullet.position r.bullet.radius u.position u.radius then
        ({ r.bullet with dead := true },
         { st1 with
           ufo := none, lastUfoSpawnTime := e.now
           score := st1.score + 500
           powerUps := st1.powerUps ++ spawnPowerUp (e.dropR 1 i) u.position
           particles := st1.particles ++
             createExplosion e.cosF e.sinF (e.explR 1 i) u.position 20 })
      else (r.bullet, st1)
    | none => (r.bullet, st1)
  | .ufo =>
    match st.ship with
    | some sh =>
      if sh.dead = false ∧ sh.invulnerable ≤ 0 then
        if 0 < sh.powerupShieldTimer then
          if checkCollision b.position b.radius sh.position (sh.radius * 2) then
            ({ b with dead := true }, st)
          else (b, st)
        else
          if checkCollision b.position b.radius sh.position (sh.radius * (7/10)) then
            ({ b with dead := true },
             applyShipDeath st sh
               (createExplosion e.cosF e.sinF (e.explR 2 i) sh.position 30))
          else (b, st)
      else (b, st)
    | none => (b, st)

/-- Fold of `resolveBullet` over the projectile list in order,
threading the state. -/
def bulletsGo (e : Env) : ℕ → List Bullet → GameSt → List Bullet × GameSt
  | _, [], st => ([], st)
  | i, b :: bs, st =>
    let r := resolveBullet e i b st
    let rest := bulletsGo e (i + 1) bs r.2
    (r.1 :: rest.1, rest.2)

/-- Collision step 2 (`part_000` lines 617-689). -/
def bulletsPass (e : Env) (s : GameSt) : GameSt :=
  let r := bulletsGo e 0 s.bullets s
  { r.2 with bullets := r.1 }

/-- Result of resolving one homing projectile against the obstacle list. -/
structure MissileAstRes where
  missile : Missile
  asteroids : List Asteroid
  scoreAdd : ℕ
  parts : List Particle

/-- Homing projectile vs obstacles (`part_000` lines 707-717): first
live overlapping obstacle is destroyed outright — no children — for a
flat 50 points, and the scan breaks. -/
def resolveMissileAsteroids (cosF sinF : ℚ → ℚ) (expl : ℕ → ℕ → ℚ)
    (m : Missile) : List Asteroid → MissileAstRes
  | [] => { missile := m, asteroids := [], scoreAdd := 0, parts := [] }
  | a :: rest =>
    if a.dead = false ∧ checkCollision m.position m.radius a.position a.radius then
      { missile := { m with dead := true }
        asteroids := { a with dead := true } :: rest
        scoreAdd := 50
        parts := createExplosion cosF sinF expl a.position 15 }
    else
      let r := resolveMissileAsteroids cosF sinF expl m rest
      { r with asteroids := a :: r.asteroids }

/-- Resolution of one homing projectile (`part_000` lines 693-718): a
hit on the hostile unit marks the projectile dead, rolls a drop, emits
a 30-particle burst, despawns the unit, awards 500 and skips the
obstacle scan (`continue`); otherwise the obstacle scan runs. -/
def resolveMissile (e : Env) (i : ℕ) (m : Missile) (st : GameSt) :
    Missile × GameSt :=
  if m.dead then (m, st) else
  let astScan := fun (st' : GameSt) =>
    let r := resolveMissileAsteroids e.cosF e.sinF (e.explR 4 i) m st'.asteroids
    (r.missile,
     { st' with
       asteroids := r.asteroids
       score := st'.score + r.scoreAdd
       particles := st'.particles ++ r.parts })
  match st.ufo with
  | some u =>
    if checkCollision m.position m.radius u.position u.radius then
      ({ m with dead := true },
       { st with
         ufo := none, lastUfoSpawnTime := e.now
         score := st.score + 500
         powerUps := st.powerUps ++ spawnPowerUp (e.dropR 3 i) u.position
         particles := st.particles ++
           createExplosion e.cosF e.sinF (e.explR 3 i) u.position 30 })
    else astScan st
  | none => astScan st

/-- Fold of `resolveMissile` over the homing-projectile list in order. -/
def missilesGo (e : Env) : ℕ → List Missile → GameSt → List Missile × GameSt
  | _, [], st => ([], st)
  | i, m :: ms, st =>
    let r := resolveMissile e i m st
    let rest := missilesGo e (i + 1) ms r.2
    (r.1 :: rest.1, rest.2)

/-- Collision step 3 (`part_000` lines 692-718). -/
def missilesPass (e : Env) (s : GameSt) : GameSt :=
  let r := missilesGo e 0 s.missiles s
  { r.2 with missiles := r.1 }

/-- `checkDeath(obj)` (`part_000` lines 722-725): false while shielded,
otherwise a circle test at the craft's reduced `0.7 ×` radius. -/
def checkDeath (sh : Ship) (pos : Point) (radius : ℚ) : Prop :=
  sh.powerupShieldTimer ≤ 0 ∧
    checkCollision sh.position (sh.radius * (7/10)) pos radius

instance (sh : Ship) (pos : Point) (radius : ℚ) :
    Decidable (checkDeath sh pos radius) := by
  unfold checkDeath; infer_instance

/-- Collision step 4 (`part_000` lines 720-767): body collisions,
skipped while invulnerable.  The obstacle scan kills the craft on the
first `checkDeath` hit (the obstacle itself survives) and breaks; the
hostile-unit body check then runs only if the craft is still alive and
additionally destroys the unit. -/
def shipVsBodiesPass (e : Env) (st : GameSt) : GameSt :=
  match st.ship with
  | some sh =>
    if sh.dead = false ∧ sh.invulnerable ≤ 0 then
      let st1 := if ∃ a ∈ st.asteroids, checkDeath sh a.position a.radius then
          applyShipDeath st sh
            (createExplosion e.cosF e.sinF (e.explR 5 0) sh.position 30)
        else st
      match st1.ship, st1.ufo with
      | some sh2, some u =>
        if sh2.dead = false ∧ checkDeath sh2 u.position u.radius then
          applyShipDeath
            { st1 with ufo := none, lastUfoSpawnTime := e.now }
            sh2
            (createExplosion e.cosF e.sinF (e.explR 6 0) sh2.position 30 ++
             createExplosion e.cosF e.sinF (e.explR 7 0) u.position 20)
        else st1
      | _, _ => st1
    else st
  | none => st

/-- The collision phase of a `PLAYING` frame (`part_000` lines 589-768):
pickups, projectile resolution, obstacle purge (line 690), homing
projectile resolution, body collisions, in source order. -/
def collisionPhase (e : Env) (s : GameSt) : GameSt :=
  let s1 := pickupPass s
  let s2 := bulletsPass e s1
  let s3 := { s2 with asteroids := s2.asteroids.filter (fun a => a.dead = false) }
  let s4 := missilesPass e s3
  shipVsBodiesPass e s4

/-! ## The full frame (`part_000` lines 334-774) and the event system -/

/-- The frame's update gate (`part_000` line 373). -/
def activePhase (gs : GameState) : Prop :=
  gs = .PLAYING ∨ gs = .GAME_OVER ∨ gs = .LEVEL_TRANSITION

instance (gs : GameState) : Decidable (activePhase gs) := by
  unfold activePhase; infer_instance

/-- The synchronous part of `startNextLevel` (`part_000` lines 232-237),
run by the level-clear check: bump the level, enter `LEVEL_TRANSITION`
and schedule the 2-second timeout. -/
def levelClearApply (s : GameSt) : GameSt :=
  { s with
    level := s.level + 1, gameState := .LEVEL_TRANSITION
    pendingLevel := true }

/-- One animation frame (`part_000` lines 334-774): clamp the elapsed
time to `0.1 s`, and in an active phase run the update phase, then — only
when the frame's observed phase (the `gameState` closure value, read at
frame start) is `PLAYING` — the collision phase and the level-clear
check.  Within a frame the phase writes of `handleGameOver` and
`startNextLevel` are applied in program order. -/
def animateStep (e : Env) (s : GameSt) : GameSt :=
  let dt := min e.rawDelta (1/10)
  if activePhase s.gameState then
    let s1 := updatePhase e dt s
    let s2 := if s.gameState = .PLAYING then collisionPhase e s1 else s1
    if s.gameState = .PLAYING ∧ s2.asteroids = [] ∧ s2.ufo = none then
      levelClearApply s2
    else s2
  else s

/-- The synchronous part of `startGame` (`part_000` lines 204-230):
reset counters, clear every collection, reset the craft, enter
`LEVEL_TRANSITION` and schedule the 2-second start timeout. -/
def startGameApply (now w h : ℚ) (s : GameSt) : GameSt :=
  { s with
    score := 0, lives := 3, level := 1, gameState := .LEVEL_TRANSITION
    asteroids := [], bullets := [], particles := [], powerUps := []
    missiles := [], ufo := none, lastUfoSpawnTime := now
    ship := some (resetShip w h), pendingStart := true }

/-- Constraints on one obstacle produced by `spawnAsteroids` (`part_000`
lines 131-157): a live large obstacle at a field position outside the
centered 150-unit exclusion square.  Its velocity, spin and outline come
from `Math.random()` draws and trigonometry and are left unconstrained
(the random speed scale and jitter pass through the trig oracles). -/
def SpawnedAsteroid (w h : ℚ) (a : Asteroid) : Prop :=
  a.size = .large ∧ a.radius = astRadius .large ∧ a.dead = false ∧
  a.angle = 0 ∧ 0 ≤ a.position.x ∧ a.position.x < w ∧
  0 ≤ a.position.y ∧ a.position.y < h ∧
  ¬(|a.position.x - w / 2| < 150 ∧ |a.position.y - h / 2| < 150)

/-- The obstacle field produced by `spawnAsteroids(count, bonus, w, h)`
with `count + bonus = n`. -/
def SpawnedField (w h : ℚ) (n : ℕ) (asts : List Asteroid) : Prop :=
  asts.length = n ∧ ∀ a ∈ asts, SpawnedAsteroid w h a

/-- The `setTimeout` body of `startNextLevel` (`part_000` lines 238-253):
recenter the craft (its `dead` flag is NOT cleared), refresh
invulnerability, seed the new obstacle field, return to `PLAYING` and
reset the hostile-unit spawn clock. -/
def nextLevelApply (now w h : ℚ) (asts : List Asteroid) (s : GameSt) : GameSt :=
  { s with
    ship := s.ship.map (fun sh => { sh with
      position := { x := w / 2, y := h / 2 }
      velocity := { x := 0, y := 0 }
      angle := -(mathPi / 2), invulnerable := 3, thrusting := false })
    asteroids := s.asteroids ++ asts
    gameState := .PLAYING
    lastUfoSpawnTime := now
    pendingLevel := false }

/-- The homing projectile created by the fire-secondary keydown handler
(`part_000` lines 298-317). -/
def mkFiredMissile (cF sF : ℚ → ℚ) (sh : Ship) : Missile :=
  let nose := rotatePoint cF sF { x := sh.radius, y := 0 } sh.angle
  { position := { x := sh.position.x + nose.x, y := sh.position.y + nose.y }
    velocity := { x := cF sh.angle * MISSILE_SPEED
                  y := sF sh.angle * MISSILE_SPEED }
    angle := sh.angle, radius := 5, dead := false, life := 3 }

/-- The events of the game component: animation frames, the deferred
`setTimeout` actions (each guarded by its `pending*` flag; the deferred
respawn of `part_000` lines 683/736-738/759-761 may also be skipped by
its stale captured-`lives` guard, hence `respawnSkip`), and the
user-interface transitions.  Random spawn fields enter
nondeterministically, constrained by `SpawnedField` (the source's
rejection-sampling `do/while` makes the positions a nondeterministic
choice). -/
inductive Step : GameSt → GameSt → Prop where
  | frame (e : Env) (s : GameSt) :
      Step s (animateStep e s)
  | startGame (now w h : ℚ) (s : GameSt) :
      s.gameState = .MENU ∨ s.gameState = .HIGH_SCORES →
      Step s (startGameApply now w h s)
  | startTimeout (w h : ℚ) (asts : List Asteroid) (s : GameSt) :
      s.pendingStart = true →
      SpawnedField w h 3 asts →
      Step s { s with
        asteroids := s.asteroids ++ asts
        gameState := .PLAYING, pendingStart := false }
  | nextLevelTimeout (now w h : ℚ) (asts : List Asteroid) (s : GameSt) :
      s.pendingLevel = true →
      SpawnedField w h (3 + s.level) asts →
      Step s (nextLevelApply now w h asts s)
  | respawnFire (w h : ℚ) (s : GameSt) :
      s.pendingRespawn = true →
      Step s { s with pendingRespawn := false, ship := some (resetShip w h) }
  | respawnSkip (s : GameSt) :
      s.pendingRespawn = true →
      Step s { s with pendingRespawn := false }
  | gameOverTimeout (isHigh : Bool) (s : GameSt) :
      s.pendingGameOver = true →
      Step s { s with
        pendingGameOver := false
        gameState := if isHigh then .ENTER_INITIALS else .HIGH_SCORES }
  | fireMissile (cF sF : ℚ → ℚ) (sh : Ship) (s : GameSt) :
      s.gameState = .PLAYING →
      s.ship = some sh →
      sh.dead = false →
      0 < sh.missileAmmo →
      Step s { s with
        ship := some { sh with missileAmmo := sh.missileAmmo - 1 }
        missiles := s.missiles ++ [mkFiredMissile cF sF sh] }
  | submitScore (s : GameSt) :
      s.gameState = .ENTER_INITIALS →
      Step s { s with gameState := .HIGH_SCORES }
  | gotoMenu (s : GameSt) :
      s.gameState = .HIGH_SCORES →
      Step s { s with gameState := .MENU }
  | viewScores (s : GameSt) :
      s.gameState = .MENU →
      Step s { s with gameState := .HIGH_SCORES }

/-- The component's state at mount (`part_000` lines 41-65). -/
def initialState : GameSt :=
  { gameState := .MENU, score := 0, lives := 3, level := 1
    ship := none, ufo := none
    asteroids := [], bullets := [], missiles := [], powerUps := []
    particles := []
    lastUfoSpawnTime := 0, nextUfoSpawnDelay := 20000
    pendingRespawn := false, pendingGameOver := false
    pendingLevel := false, pendingStart := false
    gameOverCount := 0 }

/-- States reachable from mount through the event system. -/
inductive Reachable : GameSt → Prop where
  | init : Reachable initialState
  | step {s s' : GameSt} : Reachable s → Step s s' → Reachable s'

/-! ## Predicates and concrete states used by the verification -/

/-- Membership of a point in the half-open box `[0,w) × [0,h)` (the
boxes named by the specification). -/
def inHalfOpenBox (p : Point) (w h : ℚ) : Prop :=
  0 ≤ p.x ∧ p.x < w ∧ 0 ≤ p.y ∧ p.y < h

instance (p : Point) (w h : ℚ) : Decidable (inHalfOpenBox p w h) := by
  unfold inHalfOpenBox; infer_instance

/-- Every obstacle of a collection lies in the closed box. -/
def allAstBox (w h : ℚ) (l : List Asteroid) : Prop :=
  ∀ a ∈ l, inClosedBox a.position w h

/-- The craft's position, when a craft exists. -/
def shipPosOf (s : GameSt) : Option Point := s.ship.map (fun sh => sh.position)

/-- A state change in which no craft death occurred: lives, the
deferred-action flags, the `handleGameOver` count, craft aliveness and
the phase are untouched. -/
def Quiet (s s' : GameSt) : Prop :=
  s'.lives = s.lives ∧ s'.pendingRespawn = s.pendingRespawn ∧
  s'.pendingGameOver = s.pendingGameOver ∧
  s'.gameOverCount = s.gameOverCount ∧
  shipAliveB s' = shipAliveB s ∧ s'.gameState = s.gameState

/-- A state change consisting of exactly one craft death: the craft was
alive and is now dead, lives dropped by exactly one, and either lives
reached zero and `handleGameOver` ran once (phase `GAME_OVER`), or a
respawn was scheduled and the phase is unchanged. -/
def OneDeath (s s' : GameSt) : Prop :=
  shipAliveB s = true ∧ shipAliveB s' = false ∧ s'.lives = s.lives - 1 ∧
  ((s'.lives ≤ 0 ∧ s'.pendingGameOver = true ∧
    s'.pendingRespawn = s.pendingRespawn ∧
    s'.gameOverCount = s.gameOverCount + 1 ∧ s'.gameState = .GAME_OVER) ∨
   (0 < s'.lives ∧ s'.pendingRespawn = true ∧
    s'.pendingGameOver = s.pendingGameOver ∧
    s'.gameOverCount = s.gameOverCount ∧ s'.gameState = s.gameState))

/-- Frame-level no-death shape: as `Quiet`, except that the level-clear
check of a `PLAYING` frame may move the phase to `LEVEL_TRANSITION`. -/
def FrameQuiet (s s' : GameSt) : Prop :=
  s'.lives = s.lives ∧ s'.pendingRespawn = s.pendingRespawn ∧
  s'.pendingGameOver = s.pendingGameOver ∧
  s'.gameOverCount = s.gameOverCount ∧
  shipAliveB s' = shipAliveB s ∧
  (s'.gameState = s.gameState ∨
    (s.gameState = .PLAYING ∧ s'.gameState = .LEVEL_TRANSITION))

/-- Frame-level single-death shape: only a `PLAYING` frame with a live
craft can kill it, lives drop by exactly one, `handleGameOver` runs
exactly once just when lives reach zero, and otherwise a respawn is
scheduled; the level-clear check may additionally move the phase to
`LEVEL_TRANSITION`. -/
def FrameOneDeath (s s' : GameSt) : Prop :=
  s.gameState = .PLAYING ∧ shipAliveB s = true ∧ shipAliveB s' = false ∧
  s'.lives = s.lives - 1 ∧
  ((s'.lives ≤ 0 ∧ s'.pendingGameOver = true ∧
    s'.pendingRespawn = s.pendingRespawn ∧
    s'.gameOverCount = s.gameOverCount + 1 ∧
    (s'.gameState = .GAME_OVER ∨ s'.gameState = .LEVEL_TRANSITION)) ∨
   (0 < s'.lives ∧ s'.pendingRespawn = true ∧
    s'.pendingGameOver = s.pendingGameOver ∧
    s'.gameOverCount = s.gameOverCount ∧
    (s'.gameState = .PLAYING ∨ s'.gameState = .LEVEL_TRANSITION)))

/-- Inductive invariant of the reachable states: lives are nonnegative,
a live craft implies at least one life, a pending deferred respawn
implies a dead craft, a positive life count and an in-game phase, and a
pending game-over timeout implies no pending respawn, a dead craft,
exactly zero lives and an in-game phase. -/
def Inv (s : GameSt) : Prop :=
  0 ≤ s.lives ∧
  (shipAliveB s = true → 1 ≤ s.lives) ∧
  (s.pendingRespawn = true →
    shipAliveB s = false ∧ 1 ≤ s.lives ∧
    (s.gameState = .PLAYING ∨ s.gameState = .LEVEL_TRANSITION)) ∧
  (s.pendingGameOver = true →
    s.pendingRespawn = false ∧ shipAliveB s = false ∧ s.lives = 0 ∧
    (s.gameState = .GAME_OVER ∨ s.gameState = .LEVEL_TRANSITION ∨
     s.gameState = .PLAYING))

/-- An environment with all oracles zeroed, a `0.1 s` frame and a
`10 × 10` field, used for concrete evaluations. -/
def zeroEnv : Env :=
  { rawDelta := 1/10, width := 10, height := 10, now := 0
    keyLeft := false, keyRight := false, keyUp := false, keyFire := false
    cosF := fun _ => 0, sinF := fun _ => 0, atan2F := fun _ _ => 0
    exhaustR := fun _ => 0, ufoR := fun _ => 0, smokeR := fun _ => 0
    explR := fun _ _ _ _ => 0, dropR := fun _ _ _ => 0
    childR := fun _ _ _ => 0 }

/-- A live craft-owned projectile about to fly off the right field edge. -/
def c2CexBullet : Bullet :=
  { position := { x := 5, y := 5 }, velocity := { x := 200, y := 0 }
    angle := 0, radius := 2, dead := false, life := 3/2, owner := .ship }

/-- A `GAME_OVER` state holding only that projectile. -/
def c2CexState : GameSt :=
  { initialState with gameState := .GAME_OVER, bullets := [c2CexBullet] }

/-- A craft that is both shielded and invulnerable (e.g. a shield picked
up during post-respawn invulnerability). -/
def c7CexShip : Ship :=
  { resetShip 10 10 with powerupShieldTimer := 5 }

/-- A hostile-owned projectile sitting on that craft. -/
def c7CexBullet : Bullet :=
  { position := { x := 5, y := 5 }, velocity := { x := 0, y := 0 }
    angle := 0, radius := 3, dead := false, life := 1, owner := .ufo }

/-- A `PLAYING` state holding that craft and that projectile. -/
def c7CexState : GameSt :=
  { initialState with
    gameState := .PLAYING, ship := some c7CexShip
    bullets := [c7CexBullet] }

/-- A live craft-owned projectile at the origin. -/
def c4WitBullet : Bullet :=
  { position := { x := 0, y := 0 }, velocity := { x := 0, y := 0 }
    angle := 0, radius := 2, dead := false, life := 1, owner := .ship }

/-- A live large obstacle overlapping that projectile. -/
def c4WitAst : Asteroid :=
  { position := { x := 1, y := 0 }, velocity := { x := 0, y := 0 }
    angle := 0, radius := 40, dead := false, size := .large
    vertices := [], rotationSpeed := 0 }

/-- A live homing projectile at the origin. -/
def c6WitMissile : Missile :=
  { position := { x := 0, y := 0 }, velocity := { x := 0, y := 0 }
    angle := 0, radius := 5, dead := false, life := 1 }

/-- A hostile unit overlapping that homing projectile. -/
def c6WitUfo : Ufo :=
  { position := { x := 1, y := 0 }, velocity := { x := 0, y := 0 }
    angle := 0, radius := 20, dead := false
    directionChangeTimer := 0, shootCooldown := 2, accuracy := 8/10 }

/-- A `PLAYING` state holding that hostile unit. -/
def c6WitState : GameSt :=
  { initialState with gameState := .PLAYING, ufo := some c6WitUfo }

/-- A craft that is shielded and no longer invulnerable. -/
def c7WitShip : Ship :=
  { resetShip 10 10 with powerupShieldTimer := 5, invulnerable := 0 }

/-- A `PLAYING` state holding that craft. -/
def c7WitState : GameSt :=
  { initialState with gameState := .PLAYING, ship := some c7WitShip }

/-! ## Theorems: geometry utilities (claims C1 and C5) -/

theorem mathPi_pos : (0 : ℚ) < mathPi := by norm_num [mathPi]

theorem wrapPos_box (pos : Point) (w h : ℚ) (hw : 0 ≤ w) (hh : 0 ≤ h) :
    inClosedBox (wrapPosition pos w h) w h := by
  unfold wrapPosition inClosedBox
  dsimp only
  split_ifs <;> refine ⟨by linarith, by linarith, by linarith, by linarith⟩

/-- C1 (amended): for every input position and positive bounds,
`wrapPosition` returns a point in the CLOSED box `[0,width] × [0,height]`.
(The half-open box of the claim as stated is refuted by
`c1_halfopen_cex`: a negative coordinate is sent to the far boundary
itself.) -/
theorem c1_wrapPosition_closed_box (pos : Point) (w h : ℚ)
    (hw : 0 < w) (hh : 0 < h) : inClosedBox (wrapPosition pos w h) w h :=
  wrapPos_box pos w h (le_of_lt hw) (le_of_lt hh)

/-- Witness for `c1_wrapPosition_closed_box` at a concrete input. -/
theorem c1_wrapPosition_closed_box_witness :
    (0 : ℚ) < 10 ∧ inClosedBox (wrapPosition { x := -3, y := 7 } 10 10) 10 10 :=
  ⟨by norm_num,
   c1_wrapPosition_closed_box { x := -3, y := 7 } 10 10 (by norm_num) (by norm_num)⟩

/-- C1 counterexample: with positive bounds `10 × 10`, the input
`(-1, 5)` is mapped to `(10, 5)`, whose x coordinate is not in `[0, 10)`. -/
theorem c1_halfopen_cex :
    (wrapPosition { x := -1, y := 5 } 10 10).x = 10 ∧
    ¬ inHalfOpenBox (wrapPosition { x := -1, y := 5 } 10 10) 10 10 := by
  decide

theorem wrapDown_le (a : ℚ) : wrapDown a ≤ mathPi := by
  induction a using wrapDown.induct with
  | case1 a h ih =>
    rw [wrapDown, if_pos h]
    exact ih
  | case2 a h =>
    rw [wrapDown, if_neg h]
    exact le_of_not_lt h

theorem wrapUp_bounds : ∀ a : ℚ, a ≤ mathPi →
    -mathPi ≤ wrapUp a ∧ wrapUp a ≤ mathPi := by
  intro a
  induction a using wrapUp.induct with
  | case1 a h ih =>
    intro _
    rw [wrapUp, if_pos h]
    exact ih (by linarith)
  | case2 a h =>
    intro hle
    rw [wrapUp, if_neg h]
    exact ⟨le_of_not_lt h, hle⟩

theorem wrapDown_eq_self {a : ℚ} (h : a ≤ mathPi) : wrapDown a = a := by
  rw [wrapDown, if_neg (not_lt.mpr h)]

theorem wrapUp_eq_self {a : ℚ} (h : -mathPi ≤ a) : wrapUp a = a := by
  rw [wrapUp, if_neg (not_lt.mpr h)]

theorem normalizeAngle_bounds (a : ℚ) :
    -mathPi ≤ normalizeAngle a ∧ normalizeAngle a ≤ mathPi :=
  wrapUp_bounds (wrapDown a) (wrapDown_le a)

/-- C5 (amended): `normalizeAngle` maps every input into the CLOSED
interval `[-π, π]` — the lower endpoint `-π` is attained (see
`c5_open_interval_cex`), so the image is not `(-π, π]` — and it is
idempotent. -/
theorem c5_normalizeAngle_range_idem (a : ℚ) :
    -mathPi ≤ normalizeAngle a ∧ normalizeAngle a ≤ mathPi ∧
    normalizeAngle (normalizeAngle a) = normalizeAngle a := by
  obtain ⟨h1, h2⟩ := normalizeAngle_bounds a
  refine ⟨h1, h2, ?_⟩
  show wrapUp (wrapDown (normalizeAngle a)) = normalizeAngle a
  rw [wrapDown_eq_self h2, wrapUp_eq_self h1]

/-- C5 counterexample: the input `-3π` is normalized to `-π` exactly,
which lies outside the claimed interval `(-π, π]`. -/
theorem c5_open_interval_cex :
    normalizeAngle (-3 * mathPi) = -mathPi ∧
    ¬ (-mathPi < normalizeAngle (-3 * mathPi)) := by
  have hd : wrapDown (-3 * mathPi) = -3 * mathPi :=
    wrapDown_eq_self (by nlinarith [mathPi_pos])
  have he : (-3 * mathPi + 2 * mathPi) = -mathPi := by ring
  have hu : wrapUp (-3 * mathPi) = -mathPi := by
    rw [wrapUp, if_pos (by nlinarith [mathPi_pos] : -3 * mathPi < -mathPi), he,
      wrapUp_eq_self le_rfl]
  have hn : normalizeAngle (-3 * mathPi) = -mathPi := by
    show wrapUp (wrapDown (-3 * mathPi)) = -mathPi
    rw [hd, hu]
  exact ⟨hn, by rw [hn]; exact lt_irrefl _⟩

/-! ## Theorems: time dilation (claim C3) -/

/-- C3 (confirmed): when the craft's time-dilation countdown is positive
at frame start, the frame's enemy delta is exactly `0.3 × dt`, and under
that delta: hostile-owned projectiles, obstacles and the hostile unit
advance (position, and lifetime where present) by exactly `0.3 × dt`,
while craft-owned projectiles and the craft itself advance by the full
`dt` (the craft by its updated velocity times `dt`, then wrapped). -/
theorem c3_time_dilation (dt : ℚ) (sh : Ship)
    (hts : 0 < sh.powerupTimeSlowTimer) :
    enemyDtOf (timeSlowActive (some sh)) dt = dt * (3/10) ∧
    (∀ b : Bullet, b.owner = .ufo →
      (bulletStep dt (dt * (3/10)) b).position =
        { x := b.position.x + b.velocity.x * (dt * (3/10))
          y := b.position.y + b.velocity.y * (dt * (3/10)) } ∧
      (bulletStep dt (dt * (3/10)) b).life = b.life - dt * (3/10)) ∧
    (∀ b : Bullet, b.owner = .ship →
      (bulletStep dt (dt * (3/10)) b).position =
        { x := b.position.x + b.velocity.x * dt
          y := b.position.y + b.velocity.y * dt } ∧
      (bulletStep dt (dt * (3/10)) b).life = b.life - dt) ∧
    (∀ (w h : ℚ) (a : Asteroid),
      (asteroidStep (dt * (3/10)) w h a).position =
        wrapPosition
          { x := a.position.x + a.velocity.x * (dt * (3/10))
            y := a.position.y + a.velocity.y * (dt * (3/10)) } w h) ∧
    (∀ (e : Env) (shipOpt : Option Ship) (u : Ufo) (lastT nextD : ℚ)
      (u' : Ufo),
      (ufoLogic e (dt * (3/10)) shipOpt (some u) lastT nextD).ufo = some u' →
      u'.position =
        { x := u.position.x + u.velocity.x * (dt * (3/10))
          y := u.position.y + u.velocity.y * (dt * (3/10)) }) ∧
    (∀ (e : Env) (sh2 : Ship),
      (shipUpdate e dt sh2).ship.position =
        wrapPosition
          { x := sh2.position.x + (shipUpdate e dt sh2).ship.velocity.x * dt
            y := sh2.position.y + (shipUpdate e dt sh2).ship.velocity.y * dt }
          e.width e.height) := by
  refine ⟨?_, ?_, ?_, ?_, ?_, ?_⟩
  · simp [timeSlowActive, enemyDtOf, hts]
  · intro b hb
    simp [bulletStep, hb]
  · intro b hb
    simp [bulletStep, hb]
  · intro w h a
    rfl
  · intro e shipOpt u lastT nextD u' hu
    unfold ufoLogic at hu
    dsimp only at hu
    split at hu
    · exact absurd hu (by simp)
    · cases hu
      rfl
  · intro e sh2
    rfl

/-- Witness for `c3_time_dilation` at a concrete craft and delta. -/
theorem c3_time_dilation_witness :
    0 < ({ resetShip 10 10 with powerupTimeSlowTimer := 5 } : Ship).powerupTimeSlowTimer ∧
    enemyDtOf
      (timeSlowActive (some { resetShip 10 10 with powerupTimeSlowTimer := 5 }))
      (1/10) = (1/10) * (3/10) :=
  ⟨by decide,
   (c3_time_dilation (1/10) { resetShip 10 10 with powerupTimeSlowTimer := 5 }
     (by decide)).1⟩

/-! ## Theorems: projectile-obstacle resolution (claim C4) -/

theorem rba_miss (cF sF : ℚ → ℚ) (ex : ℕ → ℕ → ℚ) (dr : ℕ → ℚ)
    (cr : ℕ → ℕ → ℚ) (b : Bullet) :
    ∀ asts : List Asteroid,
    (∀ x ∈ asts, x.dead = true ∨
      ¬ checkCollision b.position b.radius x.position x.radius) →
    resolveBulletAsteroids cF sF ex dr cr b asts =
      { bullet := b, asteroids := asts, scoreAdd := 0, drops := [], parts := [] } := by
  intro asts
  induction asts with
  | nil => intro _; rfl
  | cons a rest ih =>
    intro hmiss
    have hcond : ¬ (a.dead = false ∧
        checkCollision b.position b.radius a.position a.radius) := by
      rcases hmiss a (List.mem_cons_self a rest) with h | h
      · intro hk
        rw [h] at hk
        exact absurd hk.1 (by simp)
      · intro hk
        exact h hk.2
    rw [resolveBulletAsteroids, if_neg hcond,
      ih (fun x hx => hmiss x (List.mem_cons_of_mem a hx))]

theorem rba_hit (cF sF : ℚ → ℚ) (ex : ℕ → ℕ → ℚ) (dr : ℕ → ℚ)
    (cr : ℕ → ℕ → ℚ) (b : Bullet) (a : Asteroid) (post : List Asteroid)
    (ha : a.dead = false)
    (hc : checkCollision b.position b.radius a.position a.radius) :
    ∀ pre : List Asteroid,
    (∀ x ∈ pre, x.dead = true ∨
      ¬ checkCollision b.position b.radius x.position x.radius) →
    resolveBulletAsteroids cF sF ex dr cr b (pre ++ a :: post) =
      { bullet := { b with dead := true }
        asteroids := pre ++ { a with dead := true } :: post ++
          (if a.size ≠ .small then
            [spawnAsteroidChild cF sF (cr 0) a (nextSize a.size),
             spawnAsteroidChild cF sF (cr 1) a (nextSize a.size)]
           else [])
        scoreAdd := astScoreValue a.size
        drops := spawnPowerUp dr a.position
        parts := createExplosion cF sF ex a.position 10 } := by
  intro pre
  induction pre with
  | nil =>
    intro _
    rw [List.nil_append, resolveBulletAsteroids, if_pos ⟨ha, hc⟩]
    simp
  | cons x xs ih =>
    intro hmiss
    have hcond : ¬ (x.dead = false ∧
        checkCollision b.position b.radius x.position x.radius) := by
      rcases hmiss x (List.mem_cons_self x xs) with h | h
      · intro hk
        rw [h] at hk
        exact absurd hk.1 (by simp)
      · intro hk
        exact h hk.2
    rw [List.cons_append, resolveBulletAsteroids, if_neg hcond,
      ih (fun y hy => hmiss y (List.mem_cons_of_mem x hy))]
    rfl

/-- C4 (confirmed): when a live craft-owned projectile meets its first
live overlapping obstacle (everything before it in spawn order is dead
or missed), both are marked dead, the score delta is the obstacle's
class value (large = 20, medium = 50, small = 100), and exactly two
child obstacles of the next-smaller class (large → medium → small)
spawn at the parent's position when the parent is large or medium, and
none when it is small. -/
theorem c4_bullet_obstacle (cF sF : ℚ → ℚ) (ex : ℕ → ℕ → ℚ) (dr : ℕ → ℚ)
    (cr : ℕ → ℕ → ℚ) (b : Bullet) (pre post : List Asteroid) (a : Asteroid)
    (R : BulletAstRes)
    (hR : R = resolveBulletAsteroids cF sF ex dr cr b (pre ++ a :: post))
    (hpre : ∀ x ∈ pre, x.dead = true ∨
      ¬ checkCollision b.position b.radius x.position x.radius)
    (ha : a.dead = false)
    (hc : checkCollision b.position b.radius a.position a.radius) :
    R.bullet = { b with dead := true } ∧
    R.scoreAdd = astScoreValue a.size ∧
    astScoreValue .large = 20 ∧ astScoreValue .medium = 50 ∧
    astScoreValue .small = 100 ∧
    nextSize .large = .medium ∧ nextSize .medium = .small ∧
    (a.size = .small → R.asteroids = pre ++ { a with dead := true } :: post) ∧
    (a.size ≠ .small →
      R.asteroids = (pre ++ { a with dead := true } :: post) ++
        [spawnAsteroidChild cF sF (cr 0) a (nextSize a.size),
         spawnAsteroidChild cF sF (cr 1) a (nextSize a.size)] ∧
      ∀ r : ℕ → ℚ,
        (spawnAsteroidChild cF sF r a (nextSize a.size)).position = a.position ∧
        (spawnAsteroidChild cF sF r a (nextSize a.size)).size = nextSize a.size ∧
        (spawnAsteroidChild cF sF r a (nextSize a.size)).dead = false) := by
  rw [rba_hit cF sF ex dr cr b a post ha hc pre hpre] at hR
  subst hR
  refine ⟨rfl, rfl, rfl, rfl, rfl, rfl, rfl, ?_, ?_⟩
  · intro hs
    simp [hs]
  · intro hs
    refine ⟨?_, fun r => ⟨rfl, rfl, rfl⟩⟩
    simp [hs]

/-- Witness for `c4_bullet_obstacle`: a concrete projectile destroying a
concrete large obstacle. -/
theorem c4_bullet_obstacle_witness :
    (resolveBulletAsteroids (fun _ => 0) (fun _ => 0) (fun _ _ => 0)
      (fun _ => 0) (fun _ _ => 0) c4WitBullet [c4WitAst]).bullet =
      { c4WitBullet with dead := true } ∧
    (resolveBulletAsteroids (fun _ => 0) (fun _ => 0) (fun _ _ => 0)
      (fun _ => 0) (fun _ _ => 0) c4WitBullet [c4WitAst]).scoreAdd =
      astScoreValue c4WitAst.size := by
  have H := c4_bullet_obstacle (fun _ => 0) (fun _ => 0) (fun _ _ => 0)
    (fun _ => 0) (fun _ _ => 0) c4WitBullet [] [] c4WitAst _ rfl
    (by intro x hx; cases hx) rfl
    (by norm_num [checkCollision, distSq, c4WitBullet, c4WitAst])
  exact ⟨H.1, H.2.1⟩

/-! ## Theorems: homing-projectile resolution (claim C6) -/

theorem rma_hit (cF sF : ℚ → ℚ) (ex : ℕ → ℕ → ℚ) (m : Missile)
    (a : Asteroid) (post : List Asteroid)
    (ha : a.dead = false)
    (hc : checkCollision m.position m.radius a.position a.radius) :
    ∀ pre : List Asteroid,
    (∀ x ∈ pre, x.dead = true ∨
      ¬ checkCollision m.position m.radius x.position x.radius) →
    resolveMissileAsteroids cF sF ex m (pre ++ a :: post) =
      { missile := { m with dead := true }
        asteroids := pre ++ { a with dead := true } :: post
        scoreAdd := 50
        parts := createExplosion cF sF ex a.position 15 } := by
  intro pre
  induction pre with
  | nil =>
    intro _
    rw [List.nil_append, resolveMissileAsteroids, if_pos ⟨ha, hc⟩]
    rfl
  | cons x xs ih =>
    intro hmiss
    have hcond : ¬ (x.dead = false ∧
        checkCollision m.position m.radius x.position x.radius) := by
      rcases hmiss x (List.mem_cons_self x xs) with h | h
      · intro hk
        rw [h] at hk
        exact absurd hk.1 (by simp)
      · intro hk
        exact h hk.2
    rw [List.cons_append, resolveMissileAsteroids, if_neg hcond,
      ih (fun y hy => hmiss y (List.mem_cons_of_mem x hy))]
    rfl

/-- C6 (confirmed): a homing-projectile hit on the hostile unit marks
the projectile dead, despawns the unit and awards 500, leaving the
obstacles untouched; a homing-projectile hit on an obstacle of any size
class (the hostile unit being absent or missed) marks both dead, spawns
no child obstacles, and awards a flat 50; and a craft-projectile hit on
the hostile unit uses the same despawn-and-500 path. -/
theorem c6_missile_resolution :
    (∀ (e : Env) (i : ℕ) (m : Missile) (st : GameSt) (u : Ufo),
      st.ufo = some u → m.dead = false →
      checkCollision m.position m.radius u.position u.radius →
      (resolveMissile e i m st).1.dead = true ∧
      (resolveMissile e i m st).2.ufo = none ∧
      (resolveMissile e i m st).2.score = st.score + 500 ∧
      (resolveMissile e i m st).2.asteroids = st.asteroids) ∧
    (∀ (e : Env) (i : ℕ) (m : Missile) (st : GameSt)
      (pre post : List Asteroid) (a : Asteroid),
      m.dead = false →
      (st.ufo = none ∨ ∃ u, st.ufo = some u ∧
        ¬ checkCollision m.position m.radius u.position u.radius) →
      st.asteroids = pre ++ a :: post →
      (∀ x ∈ pre, x.dead = true ∨
        ¬ checkCollision m.position m.radius x.position x.radius) →
      a.dead = false →
      checkCollision m.position m.radius a.position a.radius →
      (resolveMissile e i m st).1.dead = true ∧
      (resolveMissile e i m st).2.asteroids =
        pre ++ { a with dead := true } :: post ∧
      (resolveMissile e i m st).2.score = st.score + 50 ∧
      (resolveMissile e i m st).2.ufo = st.ufo) ∧
    (∀ (e : Env) (i : ℕ) (b : Bullet) (st : GameSt) (u : Ufo),
      b.owner = .ship → b.dead = false → st.ufo = some u →
      (∀ x ∈ st.asteroids, x.dead = true ∨
        ¬ checkCollision b.position b.radius x.position x.radius) →
      checkCollision b.position b.radius u.position u.radius →
      (resolveBullet e i b st).1.dead = true ∧
      (resolveBullet e i b st).2.ufo = none ∧
      (resolveBullet e i b st).2.score = st.score + 500) := by
  refine ⟨?_, ?_, ?_⟩
  · intro e i m st u hu hm hc
    simp only [resolveMissile, hm, hu]
    rw [if_neg (by simp), if_pos hc]
    simp
  · intro e i m st pre post a hm hufo hast hpre ha hc
    have hscan :
        resolveMissileAsteroids e.cosF e.sinF (e.explR 4 i) m st.asteroids =
          { missile := { m with dead := true }
            asteroids := pre ++ { a with dead := true } :: post
            scoreAdd := 50
            parts := createExplosion e.cosF e.sinF (e.explR 4 i) a.position 15 } := by
      rw [hast]
      exact rma_hit e.cosF e.sinF (e.explR 4 i) m a post ha hc pre hpre
    rcases hufo with hu | ⟨u, hu, hnc⟩
    · simp only [resolveMissile, hm, hu]
      rw [if_neg (by simp)]
      simp [hscan, hu]
    · simp only [resolveMissile, hm, hu]
      rw [if_neg (by simp), if_neg hnc]
      simp [hscan, hu]
  · intro e i b st u hb hbd hu hmiss hc
    simp only [resolveBullet, hbd, hb]
    rw [if_neg (by simp)]
    have hscan := rba_miss e.cosF e.sinF (e.explR 0 i) (e.dropR 0 i)
      (e.childR i) b st.asteroids hmiss
    simp only [hscan, hu]
    rw [if_pos ⟨hbd, hc⟩]
    simp

/-- Witness for `c6_missile_resolution`: a concrete homing projectile
destroying a concrete hostile unit. -/
theorem c6_missile_resolution_witness :
    (resolveMissile zeroEnv 0 c6WitMissile c6WitState).1.dead = true ∧
    (resolveMissile zeroEnv 0 c6WitMissile c6WitState).2.ufo = none ∧
    (resolveMissile zeroEnv 0 c6WitMissile c6WitState).2.score =
      c6WitState.score + 500 := by
  have H := c6_missile_resolution.1 zeroEnv 0 c6WitMissile c6WitState
    c6WitUfo rfl rfl
    (by norm_num [checkCollision, distSq, c6WitMissile, c6WitUfo])
  exact ⟨H.1, H.2.1, H.2.2.1⟩

/-! ## Theorems: shield safety (claim C7) -/

theorem resolveBullet_shielded_state (e : Env) (i : ℕ) (b : Bullet)
    (st : GameSt) (sh : Ship) (hb : b.owner = .ufo) (hship : st.ship = some sh)
    (hshield : 0 < sh.powerupShieldTimer) :
    (resolveBullet e i b st).2 = st := by
  cases hd : b.dead with
  | true => simp [resolveBullet, hd]
  | false =>
    simp only [resolveBullet, hd, hb, hship, Bool.false_eq_true, if_false]
    split_ifs with h1 h2 h3 h4 <;> first | rfl | exact absurd hshield h2

/-- C7 (amended): while the craft's shield countdown is positive, no
hostile-projectile resolution and no body-collision pass marks the craft
dead, changes lives, the phase, the scheduled-respawn flag or the
game-over machinery; and a live hostile projectile overlapping the
doubled shield radius is merely marked dead PROVIDED the craft's
invulnerability countdown is not positive (while invulnerable the whole
check is skipped and the projectile survives — see the counterexample). -/
theorem c7_shield_safety :
    (∀ (e : Env) (i : ℕ) (b : Bullet) (st : GameSt) (sh : Ship),
      b.owner = .ufo → st.ship = some sh →
      0 < sh.powerupShieldTimer →
      (resolveBullet e i b st).2 = st ∧
      (b.dead = false → sh.dead = false → sh.invulnerable ≤ 0 →
        checkCollision b.position b.radius sh.position (sh.radius * 2) →
        (resolveBullet e i b st).1.dead = true)) ∧
    (∀ (e : Env) (st : GameSt) (sh : Ship),
      st.ship = some sh → 0 < sh.powerupShieldTimer →
      shipVsBodiesPass e st = st) := by
  constructor
  · intro e i b st sh hb hship hshield
    refine ⟨resolveBullet_shielded_state e i b st sh hb hship hshield, ?_⟩
    intro hbd hdead hinv hcol
    simp only [resolveBullet, hbd, hb, hship, Bool.false_eq_true, if_false]
    rw [if_pos ⟨hdead, hinv⟩, if_pos hshield, if_pos hcol]
  · intro e st sh hship hshield
    unfold shipVsBodiesPass
    simp only [hship]
    by_cases hg : sh.dead = false ∧ sh.invulnerable ≤ 0
    · rw [if_pos hg]
      have hex : ¬ ∃ a ∈ st.asteroids, checkDeath sh a.position a.radius := by
        rintro ⟨a, _, hd⟩
        exact absurd hd.1 (not_le.mpr hshield)
      rw [if_neg hex]
      cases hu : st.ufo with
      | none => simp [hship, hu]
      | some u =>
        simp only [hship, hu]
        rw [if_neg (fun hk => absurd hk.2.1 (not_le.mpr hshield))]
    · rw [if_neg hg]

/-- C7 counterexample: a craft that is both shielded (countdown 5) and
invulnerable (countdown 3, as after a respawn): the hostile projectile
overlaps the doubled shield radius, yet the resolution leaves it alive
instead of marking it dead; the whole branch is skipped while
invulnerable. -/
theorem c7_shield_cex :
    0 < c7CexShip.powerupShieldTimer ∧
    0 < c7CexShip.invulnerable ∧
    c7CexBullet.owner = .ufo ∧
    c7CexBullet.dead = false ∧
    c7CexState.ship = some c7CexShip ∧
    checkCollision c7CexBullet.position c7CexBullet.radius
      c7CexShip.position (c7CexShip.radius * 2) ∧
    (resolveBullet zeroEnv 0 c7CexBullet c7CexState).1.dead = false := by
  refine ⟨by norm_num [c7CexShip, resetShip], by norm_num [c7CexShip, resetShip],
    rfl, rfl, rfl, ?_, ?_⟩
  · refine ⟨by norm_num [c7CexBullet, c7CexShip, resetShip, SHIP_SIZE], ?_⟩
    norm_num [distSq, c7CexBullet, c7CexShip, resetShip, SHIP_SIZE]
  · simp only [resolveBullet]
    norm_num [c7CexBullet, c7CexState, c7CexShip, resetShip, initialState,
      SHIP_SIZE]

/-- Witness for `c7_shield_safety`: a concrete shielded, no-longer
invulnerable craft absorbing a hostile projectile without losing a
life, and surviving the body pass. -/
theorem c7_shield_safety_witness :
    (resolveBullet zeroEnv 0 c7CexBullet c7WitState).2 = c7WitState ∧
    (resolveBullet zeroEnv 0 c7CexBullet c7WitState).1.dead = true ∧
    shipVsBodiesPass zeroEnv c7WitState = c7WitState := by
  have H1 := c7_shield_safety.1 zeroEnv 0 c7CexBullet c7WitState c7WitShip
    rfl rfl (by norm_num [c7WitShip, resetShip])
  refine ⟨H1.1, ?_, ?_⟩
  · refine H1.2 rfl rfl (by norm_num [c7WitShip, resetShip]) ?_
    refine ⟨by norm_num [c7CexBullet, c7WitShip, resetShip, SHIP_SIZE], ?_⟩
    norm_num [distSq, c7CexBullet, c7WitShip, resetShip, SHIP_SIZE]
  · exact c7_shield_safety.2 zeroEnv c7WitState c7WitShip rfl
      (by norm_num [c7WitShip, resetShip])

/-! ## Theorems: positions after a frame (claim C2) -/

theorem applyShipDeath_asteroids (st : GameSt) (sh : Ship) (parts : List Particle) :
    (applyShipDeath st sh parts).asteroids = st.asteroids := by
  unfold applyShipDeath
  dsimp only
  split_ifs <;> rfl

theorem applyShipDeath_shipPos (st : GameSt) (sh : Ship) (parts : List Particle)
    (hship : st.ship = some sh) :
    shipPosOf (applyShipDeath st sh parts) = shipPosOf st := by
  unfold applyShipDeath shipPosOf
  dsimp only
  split_ifs <;> simp [hship]

theorem rba_box (w h : ℚ) (cF sF : ℚ → ℚ) (ex : ℕ → ℕ → ℚ) (dr : ℕ → ℚ)
    (cr : ℕ → ℕ → ℚ) (b : Bullet) :
    ∀ asts : List Asteroid, allAstBox w h asts →
    allAstBox w h (resolveBulletAsteroids cF sF ex dr cr b asts).asteroids := by
  intro asts
  induction asts with
  | nil => intro _; exact fun a ha => absurd ha (List.not_mem_nil a)
  | cons a rest ih =>
    intro hbox
    have hboxr : allAstBox w h rest := fun x hx => hbox x (List.mem_cons_of_mem a hx)
    have hmem : inClosedBox a.position w h := hbox a (List.mem_cons_self a rest)
    by_cases hc : a.dead = false ∧ checkCollision b.position b.radius a.position a.radius
    · rw [resolveBulletAsteroids, if_pos hc]
      have hchild : ∀ x ∈ (if a.size ≠ AsteroidSize.small then
            [spawnAsteroidChild cF sF (cr 0) a (nextSize a.size),
             spawnAsteroidChild cF sF (cr 1) a (nextSize a.size)]
           else []), inClosedBox x.position w h := by
        by_cases hs : a.size ≠ AsteroidSize.small
        · rw [if_pos hs]
          intro x hx
          rcases List.mem_cons.mp hx with h1 | hx2
          · rw [h1]; exact hmem
          rcases List.mem_cons.mp hx2 with h1 | hx3
          · rw [h1]; exact hmem
          · exact absurd hx3 (List.not_mem_nil x)
        · rw [if_neg hs]
          intro x hx
          exact absurd hx (List.not_mem_nil x)
      exact List.forall_mem_cons.mpr
        ⟨hmem, List.forall_mem_append.mpr ⟨hboxr, hchild⟩⟩
    · rw [resolveBulletAsteroids, if_neg hc]
      exact List.forall_mem_cons.mpr ⟨hmem, ih hboxr⟩

theorem rma_box (w h : ℚ) (cF sF : ℚ → ℚ) (ex : ℕ → ℕ → ℚ) (m : Missile) :
    ∀ asts : List Asteroid, allAstBox w h asts →
    allAstBox w h (resolveMissileAsteroids cF sF ex m asts).asteroids := by
  intro asts
  induction asts with
  | nil => intro _; exact fun a ha => absurd ha (List.not_mem_nil a)
  | cons a rest ih =>
    intro hbox
    have hboxr : allAstBox w h rest := fun x hx => hbox x (List.mem_cons_of_mem a hx)
    have hmem : inClosedBox a.position w h := hbox a (List.mem_cons_self a rest)
    by_cases hc : a.dead = false ∧ checkCollision m.position m.radius a.position a.radius
    · rw [resolveMissileAsteroids, if_pos hc]
      exact List.forall_mem_cons.mpr ⟨hmem, hboxr⟩
    · rw [resolveMissileAsteroids, if_neg hc]
      exact List.forall_mem_cons.mpr ⟨hmem, ih hboxr⟩

theorem resolveBullet_astBox (w h : ℚ) (e : Env) (i : ℕ) (b : Bullet)
    (st : GameSt) (hbox : allAstBox w h st.asteroids) :
    allAstBox w h (resolveBullet e i b st).2.asteroids := by
  unfold resolveBullet
  cases hd : b.dead with
  | true => exact hbox
  | false =>
    simp only [Bool.false_eq_true, if_false]
    cases how : b.owner with
    | ship =>
      have hr := rba_box w h e.cosF e.sinF (e.explR 0 i) (e.dropR 0 i)
        (e.childR i) b st.asteroids hbox
      cases hu : ({ st with
          asteroids := (resolveBulletAsteroids e.cosF e.sinF (e.explR 0 i)
            (e.dropR 0 i) (e.childR i) b st.asteroids).asteroids
          score := st.score + (resolveBulletAsteroids e.cosF e.sinF (e.explR 0 i)
            (e.dropR 0 i) (e.childR i) b st.asteroids).scoreAdd
          powerUps := st.powerUps ++ (resolveBulletAsteroids e.cosF e.sinF
            (e.explR 0 i) (e.dropR 0 i) (e.childR i) b st.asteroids).drops
          particles := st.particles ++ (resolveBulletAsteroids e.cosF e.sinF
            (e.explR 0 i) (e.dropR 0 i) (e.childR i) b st.asteroids).parts
          : GameSt }).ufo with
      | none => simpa [hu] using hr
      | some u =>
        simp only [hu]
        split_ifs <;> simpa using hr
    | ufo =>
      cases hship : st.ship with
      | none => exact hbox
      | some sh =>
        simp only
        split_ifs <;> first
          | exact hbox
          | (rw [applyShipDeath_asteroids]; exact hbox)

theorem bulletsGo_astBox (w h : ℚ) (e : Env) :
    ∀ (bs : List Bullet) (i : ℕ) (st : GameSt), allAstBox w h st.asteroids →
    allAstBox w h (bulletsGo e i bs st).2.asteroids := by
  intro bs
  induction bs with
  | nil => intro i st hbox; exact hbox
  | cons b rest ih =>
    intro i st hbox
    exact ih (i + 1) (resolveBullet e i b st).2
      (resolveBullet_astBox w h e i b st hbox)

theorem resolveMissile_astBox (w h : ℚ) (e : Env) (i : ℕ) (m : Missile)
    (st : GameSt) (hbox : allAstBox w h st.asteroids) :
    allAstBox w h (resolveMissile e i m st).2.asteroids := by
  unfold resolveMissile
  cases hd : m.dead with
  | true => exact hbox
  | false =>
    simp only [Bool.false_eq_true, if_false]
    have hscan := rma_box w h e.cosF e.sinF (e.explR 4 i) m st.asteroids hbox
    cases hu : st.ufo with
    | none => exact hscan
    | some u =>
      simp only
      split_ifs
      · exact hbox
      · exact hscan

theorem missilesGo_astBox (w h : ℚ) (e : Env) :
    ∀ (ms : List Missile) (i : ℕ) (st : GameSt), allAstBox w h st.asteroids →
    allAstBox w h (missilesGo e i ms st).2.asteroids := by
  intro ms
  induction ms with
  | nil => intro i st hbox; exact hbox
  | cons m rest ih =>
    intro i st hbox
    exact ih (i + 1) (resolveMissile e i m st).2
      (resolveMissile_astBox w h e i m st hbox)

theorem pickupPass_asteroids (s : GameSt) :
    (pickupPass s).asteroids = s.asteroids := by
  unfold pickupPass
  rcases hs : s.ship with _ | sh <;> simp only [hs] <;> try rfl
  split_ifs <;> rfl

theorem shipVsBodiesPass_asteroids (e : Env) (st : GameSt) :
    (shipVsBodiesPass e st).asteroids = st.asteroids := by
  unfold shipVsBodiesPass
  rcases hs : st.ship with _ | sh
  · rfl
  simp only
  split_ifs with hg hex
  · split <;> (try split_ifs) <;>
      simp [applyShipDeath_asteroids]
  · split <;> (try split_ifs) <;>
      simp [applyShipDeath_asteroids]
  · rfl

theorem collisionPhase_astBox (w h : ℚ) (e : Env) (s : GameSt)
    (hbox : allAstBox w h s.asteroids) :
    allAstBox w h (collisionPhase e s).asteroids := by
  unfold collisionPhase
  rw [shipVsBodiesPass_asteroids]
  have h1 : allAstBox w h (pickupPass s).asteroids := by
    rw [pickupPass_asteroids]; exact hbox
  have h2 : allAstBox w h (bulletsPass e (pickupPass s)).asteroids := by
    unfold bulletsPass
    exact bulletsGo_astBox w h e (pickupPass s).bullets 0 (pickupPass s) h1
  have h3 : allAstBox w h
      ((bulletsPass e (pickupPass s)).asteroids.filter (fun a => a.dead = false)) :=
    fun a ha => h2 a (List.mem_of_mem_filter ha)
  exact missilesGo_astBox w h e _ 0 _ h3

theorem applyShipDeath_ship (st : GameSt) (sh : Ship) (parts : List Particle) :
    (applyShipDeath st sh parts).ship = some { sh with dead := true } := by
  unfold applyShipDeath
  dsimp only
  split_ifs <;> rfl

theorem applyShipDeath_shipPos2 (st : GameSt) (sh : Ship) (parts : List Particle) :
    shipPosOf (applyShipDeath st sh parts) = some sh.position := by
  unfold shipPosOf
  rw [applyShipDeath_ship]
  rfl

theorem applyPowerUpEffect_pos_dead (sh : Ship) (t : PowerUpType) :
    (applyPowerUpEffect sh t).position = sh.position ∧
    (applyPowerUpEffect sh t).dead = sh.dead := by
  cases t <;> exact ⟨rfl, rfl⟩

theorem pickupGo_fst (ps : List PowerUp) : ∀ sh : Ship,
    (pickupGo sh ps).1.position = sh.position ∧
    (pickupGo sh ps).1.dead = sh.dead := by
  induction ps with
  | nil => intro sh; exact ⟨rfl, rfl⟩
  | cons p rest ih =>
    intro sh
    unfold pickupGo
    split_ifs with hcol
    · have h1 := ih (applyPowerUpEffect sh p.type)
      have h2 := applyPowerUpEffect_pos_dead sh p.type
      exact ⟨h1.1.trans h2.1, h1.2.trans h2.2⟩
    · exact ih sh

theorem pickupPass_shipPos (s : GameSt) :
    shipPosOf (pickupPass s) = shipPosOf s := by
  unfold pickupPass
  rcases hs : s.ship with _ | sh
  · rfl
  simp only
  split_ifs with hd
  · unfold shipPosOf
    simp only [hs]
    simp [(pickupGo_fst s.powerUps sh).1]
  · rfl

theorem resolveBullet_shipPos (e : Env) (i : ℕ) (b : Bullet) (st : GameSt) :
    shipPosOf (resolveBullet e i b st).2 = shipPosOf st := by
  unfold resolveBullet
  cases hd : b.dead with
  | true => rfl
  | false =>
    simp only [Bool.false_eq_true, if_false]
    cases how : b.owner with
    | ship =>
      dsimp only
      rcases hu : st.ufo with _ | u <;> simp only [hu]
      · rfl
      · split_ifs <;> rfl
    | ufo =>
      rcases hsh : st.ship with _ | sh
      · rfl
      simp only
      split_ifs <;>
        first
          | rfl
          | (rw [applyShipDeath_shipPos2]
             simp [shipPosOf, hsh])

theorem bulletsGo_shipPos (e : Env) : ∀ (bs : List Bullet) (i : ℕ) (st : GameSt),
    shipPosOf (bulletsGo e i bs st).2 = shipPosOf st := by
  intro bs
  induction bs with
  | nil => intro i st; rfl
  | cons b rest ih =>
    intro i st
    exact (ih (i + 1) (resolveBullet e i b st).2).trans
      (resolveBullet_shipPos e i b st)

theorem resolveMissile_ship (e : Env) (i : ℕ) (m : Missile) (st : GameSt) :
    (resolveMissile e i m st).2.ship = st.ship := by
  unfold resolveMissile
  cases hd : m.dead with
  | true => rfl
  | false =>
    simp only [Bool.false_eq_true, if_false]
    rcases hu : st.ufo with _ | u <;> simp only [hu] <;> try rfl
    all_goals split_ifs <;> rfl

theorem missilesGo_ship (e : Env) : ∀ (ms : List Missile) (i : ℕ) (st : GameSt),
    (missilesGo e i ms st).2.ship = st.ship := by
  intro ms
  induction ms with
  | nil => intro i st; rfl
  | cons m rest ih =>
    intro i st
    exact (ih (i + 1) (resolveMissile e i m st).2).trans
      (resolveMissile_ship e i m st)

theorem applyShipDeath_ufo (st : GameSt) (sh : Ship) (parts : List Particle) :
    (applyShipDeath st sh parts).ufo = st.ufo := by
  unfold applyShipDeath
  dsimp only
  split_ifs <;> rfl

theorem shipVsBodiesPass_shipPos (e : Env) (st : GameSt) :
    shipPosOf (shipVsBodiesPass e st) = shipPosOf st := by
  unfold shipVsBodiesPass
  rcases hsh : st.ship with _ | sh
  · rfl
  simp only
  have hpos : shipPosOf st = some sh.position := by
    unfold shipPosOf
    rw [hsh]
    rfl
  split_ifs with hg hex
  · -- an obstacle killed the craft; st1 = applyShipDeath st sh burst
    simp only [applyShipDeath_ship, applyShipDeath_ufo]
    rcases hu : st.ufo with _ | u <;> simp only [hu]
    · rw [applyShipDeath_shipPos2, hpos]
    · rw [if_neg (by simp)]
      rw [applyShipDeath_shipPos2, hpos]
  · -- no obstacle kill; st1 = st
    simp only [hsh]
    rcases hu : st.ufo with _ | u <;> simp only [hu] <;> try rfl
    all_goals split_ifs with hc
    · rw [applyShipDeath_shipPos2, hpos]
    · rfl
  · rfl

theorem shipPosOf_congr {s' s : GameSt} (h : s'.ship = s.ship) :
    shipPosOf s' = shipPosOf s := by
  unfold shipPosOf
  rw [h]

theorem collisionPhase_shipPos (e : Env) (s : GameSt) :
    shipPosOf (collisionPhase e s) = shipPosOf s := by
  unfold collisionPhase
  rw [shipVsBodiesPass_shipPos]
  have e2 : shipPosOf (bulletsPass e (pickupPass s)) = shipPosOf s := by
    unfold bulletsPass
    exact (shipPosOf_congr rfl).trans
      ((bulletsGo_shipPos e (pickupPass s).bullets 0 (pickupPass s)).trans
        (pickupPass_shipPos s))
  unfold missilesPass
  exact (shipPosOf_congr (missilesGo_ship e _ 0 _)).trans e2

theorem updatePhase_asteroids (e : Env) (dt : ℚ) (s : GameSt) :
    (updatePhase e dt s).asteroids = s.asteroids.map
      (asteroidStep (enemyDtOf (timeSlowActive s.ship) dt) e.width e.height) := rfl

theorem updatePhase_astBox (e : Env) (dt : ℚ) (s : GameSt)
    (hw : 0 ≤ e.width) (hh : 0 ≤ e.height) :
    allAstBox e.width e.height (updatePhase e dt s).asteroids := by
  rw [updatePhase_asteroids]
  intro a ha
  rcases List.mem_map.mp ha with ⟨a0, _, rfl⟩
  exact wrapPos_box _ _ _ hw hh

theorem animateStep_nonplaying (e : Env) (s : GameSt)
    (hact : activePhase s.gameState) (hnp : s.gameState ≠ .PLAYING) :
    animateStep e s = updatePhase e (min e.rawDelta (1/10)) s := by
  unfold animateStep
  rw [if_pos hact]
  dsimp only
  rw [if_neg hnp, if_neg (fun hk => hnp hk.1)]

theorem animateStep_asteroids_playing (e : Env) (s : GameSt)
    (hgs : s.gameState = .PLAYING) :
    (animateStep e s).asteroids =
      (collisionPhase e (updatePhase e (min e.rawDelta (1/10)) s)).asteroids := by
  unfold animateStep
  have hact : activePhase s.gameState := Or.inl hgs
  rw [if_pos hact]
  dsimp only
  rw [if_pos hgs]
  split_ifs <;> rfl

theorem animateStep_ship_playing (e : Env) (s : GameSt)
    (hgs : s.gameState = .PLAYING) :
    (animateStep e s).ship =
      (collisionPhase e (updatePhase e (min e.rawDelta (1/10)) s)).ship := by
  unfold animateStep
  have hact : activePhase s.gameState := Or.inl hgs
  rw [if_pos hact]
  dsimp only
  rw [if_pos hgs]
  split_ifs <;> rfl

theorem updatePhase_ship_playing (e : Env) (dt : ℚ) (s : GameSt) (sh : Ship)
    (hgs : s.gameState = .PLAYING) (hship : s.ship = some sh)
    (hdead : sh.dead = false) :
    (updatePhase e dt s).ship = some (shipUpdate e dt sh).ship := by
  unfold updatePhase
  simp only [hship]
  rw [if_pos ⟨hgs, hdead⟩]

/-- C2 (amended): after every frame in an active phase with positive
field bounds, every obstacle (children from splits included) lies in the
CLOSED box `[0,width] × [0,height]`; every power-up that runs its
integration step is likewise wrapped into the closed box; and a live
craft in a `PLAYING` frame ends the frame at a wrapped, in-box position.
The claim as stated fails: the boxes are closed, not half-open, and
projectiles, homing projectiles, the hostile unit and particles are
never wrapped and can leave the field (see the counterexample). -/
theorem c2_entity_positions (e : Env) (s : GameSt)
    (hact : activePhase s.gameState) (hw : 0 < e.width) (hh : 0 < e.height) :
    (∀ a ∈ (animateStep e s).asteroids, inClosedBox a.position e.width e.height) ∧
    (∀ (dt : ℚ) (p : PowerUp),
      inClosedBox (powerUpStep dt e.width e.height p).position e.width e.height) ∧
    (s.gameState = .PLAYING → ∀ sh, s.ship = some sh → sh.dead = false →
      ∃ sh', (animateStep e s).ship = some sh' ∧
        inClosedBox sh'.position e.width e.height) := by
  refine ⟨?_, ?_, ?_⟩
  · by_cases hgs : s.gameState = .PLAYING
    · rw [animateStep_asteroids_playing e s hgs]
      exact collisionPhase_astBox e.width e.height e _
        (updatePhase_astBox e _ s hw.le hh.le)
    · rw [animateStep_nonplaying e s hact hgs]
      exact updatePhase_astBox e _ s hw.le hh.le
  · intro dt p
    exact wrapPos_box _ _ _ hw.le hh.le
  · intro hgs sh hship hdead
    have hup := updatePhase_ship_playing e (min e.rawDelta (1/10)) s sh hgs hship hdead
    have hpos1 : shipPosOf (updatePhase e (min e.rawDelta (1/10)) s) =
        some (shipUpdate e (min e.rawDelta (1/10)) sh).ship.position := by
      unfold shipPosOf
      rw [hup]
      rfl
    have hpos2 := collisionPhase_shipPos e (updatePhase e (min e.rawDelta (1/10)) s)
    rw [hpos1] at hpos2
    rcases hfin : (collisionPhase e (updatePhase e (min e.rawDelta (1/10)) s)).ship
      with _ | sh'
    · rw [shipPosOf, hfin] at hpos2
      cases hpos2
    · refine ⟨sh', ?_, ?_⟩
      · rw [animateStep_ship_playing e s hgs, hfin]
      · rw [shipPosOf, hfin] at hpos2
        injection hpos2 with hps
        have hps' : sh'.position =
            (shipUpdate e (min e.rawDelta (1/10)) sh).ship.position := hps
        rw [hps']
        rw [show (shipUpdate e (min e.rawDelta (1/10)) sh).ship.position = wrapPosition
          { x := sh.position.x +
              (shipUpdate e (min e.rawDelta (1/10)) sh).ship.velocity.x *
                min e.rawDelta (1/10)
            y := sh.position.y +
              (shipUpdate e (min e.rawDelta (1/10)) sh).ship.velocity.y *
                min e.rawDelta (1/10) } e.width e.height from rfl]
        exact wrapPos_box _ _ _ hw.le hh.le

/-- Witness for `c2_entity_positions` at a concrete active state. -/
theorem c2_entity_positions_witness :
    activePhase c2CexState.gameState ∧
    ∀ a ∈ (animateStep zeroEnv c2CexState).asteroids,
      inClosedBox a.position zeroEnv.width zeroEnv.height :=
  ⟨Or.inr (Or.inl rfl),
   (c2_entity_positions zeroEnv c2CexState (Or.inr (Or.inl rfl))
     (by norm_num [zeroEnv]) (by norm_num [zeroEnv])).1⟩

/-- C2 counterexample: in a `10 × 10` field, a `GAME_OVER` frame (entity
updates still run) advances a live craft-owned projectile from `(5,5)`
with velocity `(200,0)` to `(25,5)`: the surviving projectile lies
outside `[0,10) × [0,10)` — projectiles are never wrapped. -/
theorem c2_unwrapped_cex :
    activePhase c2CexState.gameState ∧
    ∀ b ∈ (animateStep zeroEnv c2CexState).bullets,
      b.dead = false ∧ b.position.x = 25 ∧
      ¬ inHalfOpenBox b.position zeroEnv.width zeroEnv.height := by
  have hb : (animateStep zeroEnv c2CexState).bullets =
      [{ position := { x := 25, y := 5 }, velocity := { x := 200, y := 0 }
         angle := 0, radius := 2, dead := false, life := 7/5, owner := .ship }] := by
    norm_num [animateStep, activePhase, updatePhase, c2CexState, c2CexBullet,
      initialState, zeroEnv, timeSlowActive, enemyDtOf, bulletStep, min_self]
    simp
  refine ⟨Or.inr (Or.inl rfl), ?_⟩
  intro b hbm
  rw [hb] at hbm
  rw [List.mem_singleton.mp hbm]
  refine ⟨rfl, rfl, ?_⟩
  intro hbox
  have := hbox.2.1
  norm_num [zeroEnv] at this

/-! ## Theorems: lives, deaths and the game-over machinery (claims C8, C9) -/

theorem quiet_refl (s : GameSt) : Quiet s s := ⟨rfl, rfl, rfl, rfl, rfl, rfl⟩

theorem quiet_trans {s t u : GameSt} (h1 : Quiet s t) (h2 : Quiet t u) :
    Quiet s u :=
  ⟨h2.1.trans h1.1, h2.2.1.trans h1.2.1, h2.2.2.1.trans h1.2.2.1,
   h2.2.2.2.1.trans h1.2.2.2.1, h2.2.2.2.2.1.trans h1.2.2.2.2.1,
   h2.2.2.2.2.2.trans h1.2.2.2.2.2⟩

theorem quiet_oneDeath {s t u : GameSt} (h1 : Quiet s t) (h2 : OneDeath t u) :
    OneDeath s u := by
  obtain ⟨hl, hpr, hpg, hgc, hsa, hgs⟩ := h1
  obtain ⟨ha1, ha2, hl2, hcase⟩ := h2
  refine ⟨hsa.symm.trans ha1, ha2, hl2.trans (by rw [hl]), ?_⟩
  rcases hcase with ⟨ha, hb, hc, hd, he⟩ | ⟨ha, hb, hc, hd, he⟩
  · exact Or.inl ⟨ha, hb, hc.trans hpr, hd.trans (by rw [hgc]), he⟩
  · exact Or.inr ⟨ha, hb, hc.trans hpg, hd.trans hgc, he.trans hgs⟩

theorem oneDeath_quiet {s t u : GameSt} (h1 : OneDeath s t) (h2 : Quiet t u) :
    OneDeath s u := by
  obtain ⟨ha1, ha2, hl2, hcase⟩ := h1
  obtain ⟨hl, hpr, hpg, hgc, hsa, hgs⟩ := h2
  refine ⟨ha1, hsa.trans ha2, hl.trans hl2, ?_⟩
  rcases hcase with ⟨ha, hb, hc, hd, he⟩ | ⟨ha, hb, hc, hd, he⟩
  · exact Or.inl ⟨by rw [hl]; exact ha, hpg.trans hb, hpr.trans hc,
      hgc.trans hd, hgs.trans he⟩
  · exact Or.inr ⟨by rw [hl]; exact ha, hpr.trans hb, hpg.trans hc,
      hgc.trans hd, hgs.trans he⟩

theorem oneDeath_dead {s t : GameSt} (h : OneDeath s t) : shipAliveB t = false :=
  h.2.1

theorem applyShipDeath_lives (st : GameSt) (sh : Ship) (parts : List Particle) :
    (applyShipDeath st sh parts).lives = st.lives - 1 := by
  unfold applyShipDeath
  dsimp only
  split_ifs <;> rfl

theorem applyShipDeath_go_fields (st : GameSt) (sh : Ship) (parts : List Particle)
    (hl : st.lives - 1 ≤ 0) :
    (applyShipDeath st sh parts).pendingGameOver = true ∧
    (applyShipDeath st sh parts).pendingRespawn = st.pendingRespawn ∧
    (applyShipDeath st sh parts).gameOverCount = st.gameOverCount + 1 ∧
    (applyShipDeath st sh parts).gameState = .GAME_OVER := by
  unfold applyShipDeath
  dsimp only
  rw [if_pos hl]
  exact ⟨rfl, rfl, rfl, rfl⟩

theorem applyShipDeath_rs_fields (st : GameSt) (sh : Ship) (parts : List Particle)
    (hl : ¬ st.lives - 1 ≤ 0) :
    (applyShipDeath st sh parts).pendingRespawn = true ∧
    (applyShipDeath st sh parts).pendingGameOver = st.pendingGameOver ∧
    (applyShipDeath st sh parts).gameOverCount = st.gameOverCount ∧
    (applyShipDeath st sh parts).gameState = st.gameState := by
  unfold applyShipDeath
  dsimp only
  rw [if_neg hl]
  exact ⟨rfl, rfl, rfl, rfl⟩

theorem applyShipDeath_oneDeath (st : GameSt) (sh : Ship) (parts : List Particle)
    (hship : st.ship = some sh) (hdead : sh.dead = false) :
    OneDeath st (applyShipDeath st sh parts) := by
  refine ⟨?_, ?_, applyShipDeath_lives st sh parts, ?_⟩
  · unfold shipAliveB
    rw [hship]
    show (!sh.dead) = true
    rw [hdead]
    rfl
  · unfold shipAliveB
    rw [applyShipDeath_ship]
    rfl
  · by_cases hl : st.lives - 1 ≤ 0
    · obtain ⟨h1, h2, h3, h4⟩ := applyShipDeath_go_fields st sh parts hl
      exact Or.inl ⟨by rw [applyShipDeath_lives]; exact hl, h1, h2, h3, h4⟩
    · obtain ⟨h1, h2, h3, h4⟩ := applyShipDeath_rs_fields st sh parts hl
      exact Or.inr ⟨by rw [applyShipDeath_lives]; omega, h1, h2, h3, h4⟩

theorem shipUpdate_dead (e : Env) (dt : ℚ) (sh : Ship) :
    (shipUpdate e dt sh).ship.dead = sh.dead := rfl

theorem pickupPass_quiet (s : GameSt) : Quiet s (pickupPass s) := by
  unfold pickupPass
  rcases hs : s.ship with _ | sh
  · exact quiet_refl s
  simp only
  split_ifs with hd
  · refine ⟨rfl, rfl, rfl, rfl, ?_, rfl⟩
    unfold shipAliveB
    rw [hs]
    simp [(pickupGo_fst s.powerUps sh).2]
  · exact quiet_refl s

theorem resolveBullet_delta (e : Env) (i : ℕ) (b : Bullet) (st : GameSt) :
    Quiet st (resolveBullet e i b st).2 ∨ OneDeath st (resolveBullet e i b st).2 := by
  unfold resolveBullet
  cases hd : b.dead with
  | true => exact Or.inl (quiet_refl st)
  | false =>
    simp only [Bool.false_eq_true, if_false]
    cases how : b.owner with
    | ship =>
      dsimp only
      rcases hu : st.ufo with _ | u <;> simp only [hu]
      · refine Or.inl ⟨rfl, rfl, rfl, rfl, ?_, rfl⟩
        unfold shipAliveB
        rfl
      · split_ifs <;>
          (refine Or.inl ⟨rfl, rfl, rfl, rfl, ?_, rfl⟩
           unfold shipAliveB
           rfl)
    | ufo =>
      rcases hsh : st.ship with _ | sh
      · exact Or.inl (quiet_refl st)
      simp only
      split_ifs with h1 h2 h3 h4 <;>
        first
          | exact Or.inl (quiet_refl st)
          | exact Or.inr (applyShipDeath_oneDeath st sh _ hsh h1.1)

theorem bulletsGo_delta (e : Env) : ∀ (bs : List Bullet) (i : ℕ) (st : GameSt),
    Quiet st (bulletsGo e i bs st).2 ∨ OneDeath st (bulletsGo e i bs st).2 := by
  intro bs
  induction bs with
  | nil => intro i st; exact Or.inl (quiet_refl st)
  | cons b rest ih =>
    intro i st
    rcases resolveBullet_delta e i b st with hq | hdth <;>
      rcases ih (i + 1) (resolveBullet e i b st).2 with hq2 | hdth2
    · exact Or.inl (quiet_trans hq hq2)
    · exact Or.inr (quiet_oneDeath hq hdth2)
    · exact Or.inr (oneDeath_quiet hdth hq2)
    · exact absurd hdth2.1 (by rw [oneDeath_dead hdth]; simp)

theorem resolveMissile_quiet (e : Env) (i : ℕ) (m : Missile) (st : GameSt) :
    Quiet st (resolveMissile e i m st).2 := by
  unfold resolveMissile
  cases hd : m.dead with
  | true => exact quiet_refl st
  | false =>
    simp only [Bool.false_eq_true, if_false]
    rcases hu : st.ufo with _ | u <;> simp only [hu]
    · refine ⟨rfl, rfl, rfl, rfl, ?_, rfl⟩
      unfold shipAliveB
      rfl
    · split_ifs <;>
        (refine ⟨rfl, rfl, rfl, rfl, ?_, rfl⟩
         unfold shipAliveB
         rfl)

theorem missilesGo_quiet (e : Env) : ∀ (ms : List Missile) (i : ℕ) (st : GameSt),
    Quiet st (missilesGo e i ms st).2 := by
  intro ms
  induction ms with
  | nil => intro i st; exact quiet_refl st
  | cons m rest ih =>
    intro i st
    exact quiet_trans (resolveMissile_quiet e i m st)
      (ih (i + 1) (resolveMissile e i m st).2)

theorem shipVsBodiesPass_delta (e : Env) (st : GameSt) :
    Quiet st (shipVsBodiesPass e st) ∨ OneDeath st (shipVsBodiesPass e st) := by
  unfold shipVsBodiesPass
  rcases hsh : st.ship with _ | sh
  · exact Or.inl (quiet_refl st)
  simp only
  split_ifs with hg hex
  · -- obstacle death happened
    have hod : OneDeath st (applyShipDeath st sh
        (createExplosion e.cosF e.sinF (e.explR 5 0) sh.position 30)) :=
      applyShipDeath_oneDeath st sh _ hsh hg.1
    simp only [applyShipDeath_ship, applyShipDeath_ufo]
    rcases hu : st.ufo with _ | u <;> simp only [hu]
    · exact Or.inr hod
    · rw [if_neg (by simp)]
      exact Or.inr hod
  · -- no obstacle death
    simp only [hsh]
    rcases hu : st.ufo with _ | u <;> simp only [hu]
    · exact Or.inl (quiet_refl st)
    · split_ifs with hc
      · have hq : Quiet st ({ st with ufo := none, lastUfoSpawnTime := e.now } : GameSt) :=
          ⟨rfl, rfl, rfl, rfl, rfl, rfl⟩
        have hship2 : ({ st with ufo := none, lastUfoSpawnTime := e.now } : GameSt).ship = some sh := hsh
        exact Or.inr (quiet_oneDeath hq (applyShipDeath_oneDeath _ sh _ hship2 hg.1))
      · exact Or.inl (quiet_refl st)
  · exact Or.inl (quiet_refl st)

theorem collisionPhase_delta (e : Env) (s : GameSt) :
    Quiet s (collisionPhase e s) ∨ OneDeath s (collisionPhase e s) := by
  unfold collisionPhase
  have h1 := pickupPass_quiet s
  have h2 := bulletsGo_delta e (pickupPass s).bullets 0 (pickupPass s)
  have h2' : Quiet s (bulletsPass e (pickupPass s)) ∨
      OneDeath s (bulletsPass e (pickupPass s)) := by
    unfold bulletsPass
    rcases h2 with hq | hdth
    · exact Or.inl (quiet_trans h1 (quiet_trans hq (quiet_refl _)))
    · exact Or.inr (oneDeath_quiet (quiet_oneDeath h1 hdth) (quiet_refl _))
  set s3 : GameSt := { bulletsPass e (pickupPass s) with
    asteroids := (bulletsPass e (pickupPass s)).asteroids.filter
      (fun a => a.dead = false) } with hs3
  have h3 : Quiet (bulletsPass e (pickupPass s)) s3 := ⟨rfl, rfl, rfl, rfl, rfl, rfl⟩
  have h4 : Quiet s3 (missilesPass e s3) := by
    unfold missilesPass
    exact quiet_trans (missilesGo_quiet e s3.missiles 0 s3) (quiet_refl _)
  have h5 := shipVsBodiesPass_delta e (missilesPass e s3)
  have hq34 : Quiet (bulletsPass e (pickupPass s)) (missilesPass e s3) :=
    quiet_trans h3 h4
  rcases h2' with hq | hdth <;> rcases h5 with hq5 | hdth5
  · exact Or.inl (quiet_trans (quiet_trans hq hq34) hq5)
  · exact Or.inr (quiet_oneDeath (quiet_trans hq hq34) hdth5)
  · exact Or.inr (oneDeath_quiet hdth (quiet_trans hq34 hq5))
  · exact absurd hdth5.1 (by
      rw [(quiet_trans h3 h4).2.2.2.2.1, oneDeath_dead hdth]
      simp)

theorem updatePhase_quiet (e : Env) (dt : ℚ) (s : GameSt) :
    Quiet s (updatePhase e dt s) := by
  refine ⟨rfl, rfl, rfl, rfl, ?_, rfl⟩
  unfold shipAliveB updatePhase
  rcases hs : s.ship with _ | sh <;> simp only [hs]
  split_ifs with h1
  · show (!(shipUpdate e dt sh).ship.dead) = !sh.dead
    rw [shipUpdate_dead]
  · rfl

theorem frameQuiet_of_quiet {s s' : GameSt} (h : Quiet s s') : FrameQuiet s s' :=
  ⟨h.1, h.2.1, h.2.2.1, h.2.2.2.1, h.2.2.2.2.1, Or.inl h.2.2.2.2.2⟩

theorem frameOneDeath_of_oneDeath {s s' : GameSt} (hp : s.gameState = .PLAYING)
    (h : OneDeath s s') : FrameOneDeath s s' := by
  obtain ⟨ha1, ha2, hl, hcase⟩ := h
  refine ⟨hp, ha1, ha2, hl, ?_⟩
  rcases hcase with ⟨a, b, c, d, e⟩ | ⟨a, b, c, d, e⟩
  · exact Or.inl ⟨a, b, c, d, Or.inl e⟩
  · exact Or.inr ⟨a, b, c, d, Or.inl (e.trans hp)⟩

theorem levelClear_frameQuiet {s s2 : GameSt} (hp : s.gameState = .PLAYING)
    (h : Quiet s s2) : FrameQuiet s (levelClearApply s2) :=
  ⟨h.1, h.2.1, h.2.2.1, h.2.2.2.1, h.2.2.2.2.1, Or.inr ⟨hp, rfl⟩⟩

theorem levelClear_frameOneDeath {s s2 : GameSt} (hp : s.gameState = .PLAYING)
    (h : OneDeath s s2) : FrameOneDeath s (levelClearApply s2) := by
  obtain ⟨ha1, ha2, hl, hcase⟩ := h
  refine ⟨hp, ha1, ha2, hl, ?_⟩
  rcases hcase with ⟨a, b, c, d, _⟩ | ⟨a, b, c, d, _⟩
  · exact Or.inl ⟨a, b, c, d, Or.inr rfl⟩
  · exact Or.inr ⟨a, b, c, d, Or.inr rfl⟩

/-- Every animation frame either kills no craft (phase changes only by
the level-clear check) or kills exactly one. -/
theorem frame_delta (e : Env) (s : GameSt) :
    FrameQuiet s (animateStep e s) ∨ FrameOneDeath s (animateStep e s) := by
  unfold animateStep
  dsimp only
  by_cases hact : activePhase s.gameState
  · rw [if_pos hact]
    by_cases hp : s.gameState = .PLAYING
    · rw [if_pos hp]
      have hq1 := updatePhase_quiet e (min e.rawDelta (1/10)) s
      have hd := collisionPhase_delta e (updatePhase e (min e.rawDelta (1/10)) s)
      split_ifs with hlc
      · rcases hd with hq2 | hod
        · exact Or.inl (levelClear_frameQuiet hp (quiet_trans hq1 hq2))
        · exact Or.inr (levelClear_frameOneDeath hp (quiet_oneDeath hq1 hod))
      · rcases hd with hq2 | hod
        · exact Or.inl (frameQuiet_of_quiet (quiet_trans hq1 hq2))
        · exact Or.inr (frameOneDeath_of_oneDeath hp (quiet_oneDeath hq1 hod))
    · rw [if_neg hp]
      split_ifs with hlc
      · exact absurd hlc.1 hp
      · exact Or.inl (frameQuiet_of_quiet (updatePhase_quiet e _ s))
  · rw [if_neg hact]
    exact Or.inl (frameQuiet_of_quiet (quiet_refl s))

theorem shipAliveB_congr {s s' : GameSt} (h : s'.ship = s.ship) :
    shipAliveB s' = shipAliveB s := by
  unfold shipAliveB
  rw [h]

theorem inv_init : Inv initialState := by
  refine ⟨by norm_num [initialState], ?_, ?_, ?_⟩ <;> intro h <;>
    simp [initialState, shipAliveB] at h

theorem inv_step {s s' : GameSt} (hI : Inv s) (hs : Step s s') : Inv s' := by
  obtain ⟨hL, hA, hR, hG⟩ := hI
  cases hs with
  | frame e =>
    rcases frame_delta e s with hq | hod
    · obtain ⟨h1, h2, h3, h4, h5, h6⟩ := hq
      refine ⟨by rw [h1]; exact hL, ?_, ?_, ?_⟩
      · intro h
        rw [h1]
        exact hA (h5.symm.trans h)
      · intro h
        have h' := hR (h2.symm.trans h)
        refine ⟨h5.trans h'.1, by rw [h1]; exact h'.2.1, ?_⟩
        rcases h6 with h6 | ⟨_, h6⟩
        · rw [h6]
          exact h'.2.2
        · exact Or.inr h6
      · intro h
        have h' := hG (h3.symm.trans h)
        refine ⟨h2.trans h'.1, h5.trans h'.2.1, by rw [h1]; exact h'.2.2.1, ?_⟩
        rcases h6 with h6 | ⟨_, h6⟩
        · rw [h6]
          exact h'.2.2.2
        · exact Or.inr (Or.inl h6)
    · obtain ⟨hp, ha1, ha2, hl, hcase⟩ := hod
      have hl1 : 1 ≤ s.lives := hA ha1
      rcases hcase with ⟨a, b, c, d, e6⟩ | ⟨a, b, c, d, e6⟩
      · have hpr : s.pendingRespawn = false := by
          cases hpr0 : s.pendingRespawn
          · rfl
          · exact absurd ((hR hpr0).1.symm.trans ha1) Bool.false_ne_true
        have hlz : (animateStep e s).lives = 0 := by omega
        refine ⟨by omega, ?_, ?_, ?_⟩
        · intro h
          rw [ha2] at h
          exact absurd h Bool.false_ne_true
        · intro h
          rw [c, hpr] at h
          exact absurd h Bool.false_ne_true
        · intro h
          refine ⟨c.trans hpr, ha2, hlz, ?_⟩
          rcases e6 with e6 | e6
          · exact Or.inl e6
          · exact Or.inr (Or.inl e6)
      · have hpg : s.pendingGameOver = false := by
          cases hpg0 : s.pendingGameOver
          · rfl
          · exact absurd ((hG hpg0).2.1.symm.trans ha1) Bool.false_ne_true
        refine ⟨by omega, ?_, ?_, ?_⟩
        · intro h
          rw [ha2] at h
          exact absurd h Bool.false_ne_true
        · intro _
          exact ⟨ha2, by omega, e6⟩
        · intro h
          rw [c, hpg] at h
          exact absurd h Bool.false_ne_true
  | startGame now w h _ hgs =>
    have hpr : s.pendingRespawn = false := by
      cases hpr0 : s.pendingRespawn
      · rfl
      · rcases (hR hpr0).2.2 with hg | hg <;> rcases hgs with hm | hm <;>
          rw [hm] at hg <;> exact absurd hg (by decide)
    have hpg : s.pendingGameOver = false := by
      cases hpg0 : s.pendingGameOver
      · rfl
      · rcases (hG hpg0).2.2.2 with hg | hg | hg <;> rcases hgs with hm | hm <;>
          rw [hm] at hg <;> exact absurd hg (by decide)
    refine ⟨?_, ?_, ?_, ?_⟩
    · exact (by norm_num : (0:ℤ) ≤ 3)
    · intro _
      exact (by norm_num : (1:ℤ) ≤ 3)
    · intro h
      have h2 : s.pendingRespawn = true := h
      rw [hpr] at h2
      exact absurd h2 Bool.false_ne_true
    · intro h
      have h2 : s.pendingGameOver = true := h
      rw [hpg] at h2
      exact absurd h2 Bool.false_ne_true
  | startTimeout w h asts _ hps hsf =>
    refine ⟨hL, fun h => hA h, ?_, ?_⟩
    · intro h
      have h' := hR h
      exact ⟨h'.1, h'.2.1, Or.inl rfl⟩
    · intro h
      have h' := hG h
      exact ⟨h'.1, h'.2.1, h'.2.2.1, Or.inr (Or.inr rfl)⟩
  | nextLevelTimeout now w h asts _ hpl hsf =>
    have hal : shipAliveB (nextLevelApply now w h asts s) = shipAliveB s := by
      unfold shipAliveB nextLevelApply
      dsimp only
      rcases s.ship with _ | sh <;> rfl
    refine ⟨hL, ?_, ?_, ?_⟩
    · intro h
      rw [hal] at h
      exact hA h
    · intro h
      have h' := hR h
      exact ⟨hal.trans h'.1, h'.2.1, Or.inl rfl⟩
    · intro h
      have h' := hG h
      exact ⟨h'.1, hal.trans h'.2.1, h'.2.2.1, Or.inr (Or.inr rfl)⟩
  | respawnFire w h _ hpr =>
    have h' := hR hpr
    have hpg : s.pendingGameOver = false := by
      cases hpg0 : s.pendingGameOver
      · rfl
      · exact absurd ((hG hpg0).1.symm.trans hpr) Bool.false_ne_true
    refine ⟨hL, ?_, ?_, ?_⟩
    · intro _
      exact h'.2.1
    · intro h
      exact absurd h Bool.false_ne_true
    · intro h
      have h2 : s.pendingGameOver = true := h
      rw [hpg] at h2
      exact absurd h2 Bool.false_ne_true
  | respawnSkip _ hpr =>
    have hpg : s.pendingGameOver = false := by
      cases hpg0 : s.pendingGameOver
      · rfl
      · exact absurd ((hG hpg0).1.symm.trans hpr) Bool.false_ne_true
    refine ⟨hL, fun h => hA h, ?_, ?_⟩
    · intro h
      exact absurd h Bool.false_ne_true
    · intro h
      have h2 : s.pendingGameOver = true := h
      rw [hpg] at h2
      exact absurd h2 Bool.false_ne_true
  | gameOverTimeout isHigh _ hpg =>
    have h' := hG hpg
    refine ⟨hL, ?_, ?_, ?_⟩
    · intro h
      have h2 : shipAliveB s = true := h
      rw [h'.2.1] at h2
      exact absurd h2 Bool.false_ne_true
    · intro h
      have h2 : s.pendingRespawn = true := h
      rw [h'.1] at h2
      exact absurd h2 Bool.false_ne_true
    · intro h
      exact absurd h Bool.false_ne_true
  | fireMissile cF sF sh _ hgs hship hdead hammo =>
    have hal : shipAliveB s = true := by
      unfold shipAliveB
      rw [hship]
      show (!sh.dead) = true
      rw [hdead]
      rfl
    refine ⟨hL, ?_, ?_, ?_⟩
    · intro _
      exact hA hal
    · intro h
      have h2 := hR h
      exact absurd (h2.1.symm.trans hal) Bool.false_ne_true
    · intro h
      have h2 := hG h
      exact absurd (h2.2.1.symm.trans hal) Bool.false_ne_true
  | submitScore _ hgs =>
    have hpr : s.pendingRespawn = false := by
      cases hpr0 : s.pendingRespawn
      · rfl
      · rcases (hR hpr0).2.2 with hg | hg <;> rw [hgs] at hg <;>
          exact absurd hg (by decide)
    have hpg : s.pendingGameOver = false := by
      cases hpg0 : s.pendingGameOver
      · rfl
      · rcases (hG hpg0).2.2.2 with hg | hg | hg <;> rw [hgs] at hg <;>
          exact absurd hg (by decide)
    refine ⟨hL, fun h => hA h, ?_, ?_⟩
    · intro h
      have h2 : s.pendingRespawn = true := h
      rw [hpr] at h2
      exact absurd h2 Bool.false_ne_true
    · intro h
      have h2 : s.pendingGameOver = true := h
      rw [hpg] at h2
      exact absurd h2 Bool.false_ne_true
  | gotoMenu _ hgs =>
    have hpr : s.pendingRespawn = false := by
      cases hpr0 : s.pendingRespawn
      · rfl
      · rcases (hR hpr0).2.2 with hg | hg <;> rw [hgs] at hg <;>
          exact absurd hg (by decide)
    have hpg : s.pendingGameOver = false := by
      cases hpg0 : s.pendingGameOver
      · rfl
      · rcases (hG hpg0).2.2.2 with hg | hg | hg <;> rw [hgs] at hg <;>
          exact absurd hg (by decide)
    refine ⟨hL, fun h => hA h, ?_, ?_⟩
    · intro h
      have h2 : s.pendingRespawn = true := h
      rw [hpr] at h2
      exact absurd h2 Bool.false_ne_true
    · intro h
      have h2 : s.pendingGameOver = true := h
      rw [hpg] at h2
      exact absurd h2 Bool.false_ne_true
  | viewScores _ hgs =>
    have hpr : s.pendingRespawn = false := by
      cases hpr0 : s.pendingRespawn
      · rfl
      · rcases (hR hpr0).2.2 with hg | hg <;> rw [hgs] at hg <;>
          exact absurd hg (by decide)
    have hpg : s.pendingGameOver = false := by
      cases hpg0 : s.pendingGameOver
      · rfl
      · rcases (hG hpg0).2.2.2 with hg | hg | hg <;> rw [hgs] at hg <;>
          exact absurd hg (by decide)
    refine ⟨hL, fun h => hA h, ?_, ?_⟩
    · intro h
      have h2 : s.pendingRespawn = true := h
      rw [hpr] at h2
      exact absurd h2 Bool.false_ne_true
    · intro h
      have h2 : s.pendingGameOver = true := h
      rw [hpg] at h2
      exact absurd h2 Bool.false_ne_true

theorem reachable_inv {s : GameSt} (h : Reachable s) : Inv s := by
  induction h with
  | init => exact inv_init
  | step h1 h2 ih => exact inv_step ih h2

theorem updatePhase_nonplaying (e : Env) (dt : ℚ) (s : GameSt)
    (hnp : s.gameState ≠ .PLAYING) :
    updatePhase e dt s = { s with
      bullets := (s.bullets.map (bulletStep dt (enemyDtOf (timeSlowActive s.ship) dt))).filter
        (fun b => b.dead = false)
      missiles := ((s.missiles.enum.map (fun pr => missileStep e dt s.ufo pr.1 pr.2)).map
        Prod.fst).filter (fun m => m.dead = false)
      asteroids := s.asteroids.map
        (asteroidStep (enemyDtOf (timeSlowActive s.ship) dt) e.width e.height)
      powerUps := (s.powerUps.map (powerUpStep dt e.width e.height)).filter
        (fun p => p.dead = false)
      particles := ((s.particles ++ ((s.missiles.enum.map
        (fun pr => missileStep e dt s.ufo pr.1 pr.2)).map Prod.snd).flatten).map
        (particleStep dt)).filter (fun p => p.dead = false) } := by
  unfold updatePhase
  dsimp only
  rcases hsh : s.ship with _ | sh <;> simp only [hsh]
  · rw [if_neg hnp]
    simp [hsh]
  · rw [if_neg (fun hk => hnp hk.1), if_neg hnp]
    simp [hsh]

/-- C8: on every reachable state the lives counter is nonnegative;
whenever the game-over transition is pending, lives are exactly zero
and no respawn is scheduled (so reaching zero triggered `handleGameOver`
exactly once and nothing else); and every animation frame either kills
no craft (`FrameQuiet`) or exactly one (`FrameOneDeath`), however many
threats overlap it, with `handleGameOver` running (once) exactly in the
death that takes lives to zero. -/
theorem c8_lives_safety :
    (∀ s : GameSt, Reachable s → 0 ≤ s.lives) ∧
    (∀ s : GameSt, Reachable s → s.pendingGameOver = true →
      s.lives = 0 ∧ s.pendingRespawn = false) ∧
    (∀ (e : Env) (s : GameSt),
      FrameQuiet s (animateStep e s) ∨ FrameOneDeath s (animateStep e s)) := by
  refine ⟨fun s hs => (reachable_inv hs).1, fun s hs h => ?_, fun e s => frame_delta e s⟩
  have h' := (reachable_inv hs).2.2.2 h
  exact ⟨h'.2.2.1, h'.1⟩

theorem c8_lives_safety_witness :
    0 ≤ initialState.lives ∧
    (FrameQuiet initialState (animateStep zeroEnv initialState) ∨
      FrameOneDeath initialState (animateStep zeroEnv initialState)) :=
  ⟨c8_lives_safety.1 initialState Reachable.init,
   c8_lives_safety.2.2 zeroEnv initialState⟩

/-- C9: on every reachable state, either no deferred respawn is pending,
or the life count is still at least one, the craft is dead, no game-over
is pending and the phase is still in-game (`PLAYING` or
`LEVEL_TRANSITION`, never `GAME_OVER`): a pending respawn can only act
while the game has not ended. -/
theorem c9_respawn_safety :
    ∀ s : GameSt, Reachable s →
      s.pendingRespawn = false ∨
      (1 ≤ s.lives ∧ shipAliveB s = false ∧ s.pendingGameOver = false ∧
        (s.gameState = .PLAYING ∨ s.gameState = .LEVEL_TRANSITION)) := by
  intro s hs
  cases hpr : s.pendingRespawn
  · exact Or.inl rfl
  · have h' := (reachable_inv hs).2.2.1 hpr
    have hpg : s.pendingGameOver = false := by
      cases hpg0 : s.pendingGameOver
      · rfl
      · exact absurd (((reachable_inv hs).2.2.2 hpg0).1.symm.trans hpr)
          Bool.false_ne_true
    exact Or.inr ⟨h'.2.1, h'.1, hpg, h'.2.2⟩

theorem c9_respawn_safety_witness :
    initialState.pendingRespawn = false ∨
    (1 ≤ initialState.lives ∧ shipAliveB initialState = false ∧
      initialState.pendingGameOver = false ∧
      (initialState.gameState = .PLAYING ∨
        initialState.gameState = .LEVEL_TRANSITION)) :=
  c9_respawn_safety initialState Reachable.init

/-- C10: in a `GAME_OVER` or `LEVEL_TRANSITION` frame the whole frame is
the update phase alone (no collision resolution, no level-clear check):
score, lives, phase, level, craft, hostile unit and the hostile-unit
spawn clock are unchanged, while projectiles, homing projectiles,
obstacles, power-ups and particles still integrate, expire and are
purged by the per-entity step functions. -/
theorem c10_inactive_phases (e : Env) (s : GameSt)
    (hgs : s.gameState = .GAME_OVER ∨ s.gameState = .LEVEL_TRANSITION) :
    animateStep e s = updatePhase e (min e.rawDelta (1/10)) s ∧
    (animateStep e s).score = s.score ∧
    (animateStep e s).lives = s.lives ∧
    (animateStep e s).gameState = s.gameState ∧
    (animateStep e s).level = s.level ∧
    (animateStep e s).ship = s.ship ∧
    (animateStep e s).ufo = s.ufo ∧
    (animateStep e s).lastUfoSpawnTime = s.lastUfoSpawnTime ∧
    (animateStep e s).nextUfoSpawnDelay = s.nextUfoSpawnDelay ∧
    (animateStep e s).bullets =
      (s.bullets.map (bulletStep (min e.rawDelta (1/10))
        (enemyDtOf (timeSlowActive s.ship) (min e.rawDelta (1/10))))).filter
        (fun b => b.dead = false) ∧
    (animateStep e s).missiles =
      ((s.missiles.enum.map (fun pr =>
        missileStep e (min e.rawDelta (1/10)) s.ufo pr.1 pr.2)).map
        Prod.fst).filter (fun m => m.dead = false) ∧
    (animateStep e s).asteroids =
      s.asteroids.map (asteroidStep
        (enemyDtOf (timeSlowActive s.ship) (min e.rawDelta (1/10)))
        e.width e.height) ∧
    (animateStep e s).powerUps =
      (s.powerUps.map (powerUpStep (min e.rawDelta (1/10))
        e.width e.height)).filter (fun p => p.dead = false) ∧
    (animateStep e s).particles =
      ((s.particles ++ ((s.missiles.enum.map (fun pr =>
        missileStep e (min e.rawDelta (1/10)) s.ufo pr.1 pr.2)).map
        Prod.snd).flatten).map (particleStep (min e.rawDelta (1/10)))).filter
        (fun p => p.dead = false) := by
  have hact : activePhase s.gameState := Or.inr hgs
  have hnp : s.gameState ≠ .PLAYING := by
    rcases hgs with h | h <;> rw [h] <;> decide
  rw [animateStep_nonplaying e s hact hnp,
    updatePhase_nonplaying e (min e.rawDelta (1/10)) s hnp]
  exact ⟨rfl, rfl, rfl, rfl, rfl, rfl, rfl, rfl, rfl, rfl, rfl, rfl, rfl, rfl⟩

def c10WitState : GameSt :=
  { initialState with gameState := .GAME_OVER }

theorem c10_inactive_phases_witness :
    animateStep zeroEnv c10WitState =
      updatePhase zeroEnv (min zeroEnv.rawDelta (1/10)) c10WitState ∧
    (animateStep zeroEnv c10WitState).score = c10WitState.score ∧
    (animateStep zeroEnv c10WitState).lives = c10WitState.lives :=
  ⟨(c10_inactive_phases zeroEnv c10WitState (Or.inl rfl)).1,
   (c10_inactive_phases zeroEnv c10WitState (Or.inl rfl)).2.1,
   (c10_inactive_phases zeroEnv c10WitState (Or.inl rfl)).2.2.1⟩

end Asteroids
